import Mathlib

/-!
Verification of the my-express-server repository against its specification.

The repository is a sequence of incremental Express servers:
* `src/server.js` concatenates three variants: the Day 3/4 server, the Day 4-6
  server (JWT auth, in-memory fallback), and the plain Day 3 server.
* `src/unnamed/part_001` concatenates a Mongo test server, the Day 2 and Day 1
  servers, and the Day 7 production server (MongoDB primary, SQLite fallback).
* `src/sqlite-db.js` is the SQLite fallback store used by the Day 7 server.

This file shallowly embeds the request handlers and stores of those servers and
proves (or refutes) the specified properties about them.  Timestamps are
modelled as natural numbers, bcrypt comparison and jwt verification as explicit
function parameters, and JSON response bodies as a small JSON value type.
-/

set_option maxHeartbeats 1000000

/-- A JSON value, used to model the exact shape of `res.json(...)` bodies.
Object fields are in source order; absent (undefined) fields are omitted. -/
inductive Jx where
  | str (s : String)
  | num (n : Int)
  | jbool (b : Bool)
  | null
  | arr (elts : List Jx)
  | obj (fields : List (String × Jx))

/-- Top-level field lookup in a JSON object; `none` on non-objects. -/
def Jx.getField (j : Jx) (k : String) : Option Jx :=
  match j with
  | .obj fields => fields.lookup k
  | _ => none

mutual

/-- Does key `k` occur (at any depth) as an object key inside `j`? -/
def Jx.hasKeyDeep (k : String) : Jx → Bool
  | .arr elts => Jx.hasKeyDeepList k elts
  | .obj fields => Jx.hasKeyDeepFields k fields
  | _ => false

/-- Key search `Jx.hasKeyDeep` on a list of values. -/
def Jx.hasKeyDeepList (k : String) : List Jx → Bool
  | [] => false
  | x :: xs => Jx.hasKeyDeep k x || Jx.hasKeyDeepList k xs

/-- Key search `Jx.hasKeyDeep` on object fields: a field matches when its name is `k`,
or when its value contains `k` somewhere. -/
def Jx.hasKeyDeepFields (k : String) : List (String × Jx) → Bool
  | [] => false
  | f :: fs => f.1 == k || Jx.hasKeyDeep k f.2 || Jx.hasKeyDeepFields k fs

end

/-- Serialize an optional JSON field: JavaScript objects simply omit fields
holding `undefined`, so an absent value contributes no field. -/
def optField (k : String) (v : Option Jx) : List (String × Jx) :=
  match v with
  | some x => [(k, x)]
  | none => []

-- ======================================================================
-- Executable string helpers (kernel-reducible stand-ins for the string
-- operations the JavaScript source uses)
-- ======================================================================

/-- Parse a decimal natural number, the numeric affinity SQLite applies when
comparing a TEXT value against an INTEGER column: a non-numeric text matches
no integer. -/
def parseNat? (s : String) : Option Nat :=
  if s.data ≠ [] && s.data.all Char.isDigit then
    some (s.data.foldl (fun n c => n * 10 + (c.toNat - 48)) 0)
  else none

/-- JavaScript `String.prototype.trim`: strip leading and trailing
whitespace. -/
def jsTrim (s : String) : String :=
  String.mk (((s.data.dropWhile Char.isWhitespace).reverse.dropWhile
    Char.isWhitespace).reverse)

/-- Split a character list at every occurrence of `sep`
(JavaScript `split(sep)`, which keeps empty pieces). -/
def splitCh (sep : Char) : List Char → List (List Char)
  | [] => [[]]
  | c :: cs =>
    match splitCh sep cs with
    | [] => [[]]
    | h :: t => if c == sep then [] :: h :: t else (c :: h) :: t

/-- JavaScript `s.split(sep)` for a one-character separator. -/
def jsSplit (sep : Char) (s : String) : List String :=
  (splitCh sep s.data).map String.mk

/-- JavaScript `s.startsWith(p)`. -/
def jsStartsWith (s p : String) : Bool :=
  s.data.take p.data.length == p.data

-- ======================================================================
-- Record types for the stored entities
-- ======================================================================

/-- A row of the SQLite `users` table (sqlite-db.js, `initDatabase`,
lines 16-29): id, name, email, password, role, isActive, createdAt,
lastLogin. -/
structure SUser where
  id : Nat
  name : String
  email : String
  password : String
  role : String
  isActive : Bool
  createdAt : Nat
  lastLogin : Option Nat
deriving Repr, DecidableEq

/-- A row of the SQLite `todos` table (sqlite-db.js, `initDatabase`,
lines 32-48).  `userId` is NOT NULL, hence a plain `Nat`. -/
structure STodo where
  id : Nat
  task : String
  description : Option String
  completed : Bool
  priority : String
  dueDate : Option String
  userId : Nat
  tags : List String
  createdAt : Nat
  updatedAt : Nat
deriving Repr, DecidableEq

/-- A Day 7 mongoose `User` document (part_001, `userSchema`, lines 588-639).
`oid` models `_id`, `v` models `__v`. -/
structure MUser where
  oid : String
  name : String
  email : String
  password : String
  role : String
  isActive : Bool
  createdAt : Nat
  lastLogin : Option Nat
  v : Nat
deriving Repr, DecidableEq

/-- A Day 7 mongoose `Todo` document (part_001, `todoSchema`, lines 642-685).
The `user` reference is `required: true`, hence a plain `String`. -/
structure MTodo where
  oid : String
  task : String
  description : Option String
  completed : Bool
  priority : String
  dueDate : Option String
  user : String
  tags : List String
  createdAt : Nat
  updatedAt : Nat
  v : Nat
deriving Repr, DecidableEq

/-- A Day 5/6 mongoose `User` document (server.js, `userSchema`,
lines 614-656); it has no `isActive` field. -/
structure M6User where
  oid : String
  name : String
  email : String
  password : String
  role : String
  createdAt : Nat
  lastLogin : Option Nat
  v : Nat
deriving Repr, DecidableEq

/-- A Day 5/6 in-memory user (server.js, `/api/register` memory branch,
lines 1019-1028). -/
structure MemUser where
  id : Nat
  name : String
  email : String
  password : String
  role : String
  createdAt : Nat
  lastLogin : Nat
deriving Repr, DecidableEq

/-- A Day 6 in-memory todo (server.js, `memoryTodos`, lines 811-815 and the
create handler lines 1386-1394).  The three seed todos carry `userId: null`,
so the owner is an `Option Nat`. -/
structure D6Todo where
  id : Nat
  task : String
  completed : Bool
  priority : String
  userId : Option Nat
  createdAt : Option Nat
  updatedAt : Option Nat
deriving Repr, DecidableEq

/-- The initial Day 6 in-memory todo list (server.js lines 811-815): three
seed todos, each with `userId: null` and no timestamps. -/
def day6MemoryTodosInit : List D6Todo :=
  [ { id := 1, task := "Complete Day 3 MongoDB", completed := true,
      priority := "high", userId := none, createdAt := none, updatedAt := none },
    { id := 2, task := "Start Day 4 Todo CRUD", completed := false,
      priority := "high", userId := none, createdAt := none, updatedAt := none },
    { id := 3, task := "Test API endpoints", completed := false,
      priority := "medium", userId := none, createdAt := none, updatedAt := none } ]

-- ======================================================================
-- Database-availability shim (C6) and auth middleware (C1)
-- ======================================================================

/-- The backend selected by the persistence shim. -/
inductive DbType where
  | mongodb
  | sqlite
  | nodb
deriving Repr, DecidableEq

/-- Day 7 `canUseDB` (part_001, lines 569-581): MongoDB exactly when the
mongoose connection readyState is 1; otherwise SQLite when the instance was
created; otherwise no database (`type: 'none', connected: false`). -/
def canUseDB7 (readyState : Nat) (sqliteUp : Bool) : DbType × Bool :=
  if readyState == 1 then (.mongodb, true)
  else if sqliteUp then (.sqlite, true)
  else (.nodb, false)

/-- Day 4-6 `canUseDB` (server.js line 808): true exactly when the mongoose
connection readyState is 1. -/
def canUseDB6 (readyState : Nat) : Bool :=
  readyState == 1

/-- Outcome of `jwt.verify`: a decoded payload id (numbers appear as their
decimal strings), a JsonWebTokenError, or a TokenExpiredError. -/
inductive JwtOut where
  | ok (id : String)
  | badToken
  | expired
deriving Repr, DecidableEq

/-- Mongoose casts an id to ObjectId before querying; a 24-character hex
string is a valid ObjectId, any other string raises a CastError (mongodb
driver behavior). -/
def isValidObjectId (s : String) : Bool :=
  s.length == 24 &&
    s.data.all fun c =>
      c.isDigit || (Char.ofNat 97 ≤ c && c ≤ Char.ofNat 102) ||
        (Char.ofNat 65 ≤ c && c ≤ Char.ofNat 70)

/-- Result of a mongoose `findById`/`findOne` on `_id`. -/
inductive MongoFind (U : Type) where
  | castError
  | notFound
  | found (u : U)
deriving Repr, DecidableEq

/-- Mongoose `Model.findById(id)`: cast the id (CastError when ill-formed), then look
the document up by `_id`. -/
def mongoFindById (oid : U → String) (users : List U) (id : String) : MongoFind U :=
  if isValidObjectId id then
    match users.find? (fun u => oid u == id) with
    | some u => .found u
    | none => .notFound
  else .castError

/-- Day 7 token extraction (part_001 lines 741-746): the header must start
with `Bearer`; the token is the second space-separated word. -/
def bearerToken7 (authorization : Option String) : Option String :=
  match authorization with
  | some h =>
    if jsStartsWith h "Bearer" then (jsSplit (Char.ofNat 32) h).get? 1 else none
  | none => none

/-- Day 5/6 token extraction (server.js line 1229):
`req.headers.authorization?.split(' ')[1]`, with no scheme check. -/
def bearerToken6 (authorization : Option String) : Option String :=
  match authorization with
  | some h => (jsSplit (Char.ofNat 32) h).get? 1
  | none => none

/-- The `findUserById` method of the SQLite store (sqlite-db.js lines 107-118): selects
the row with the given id and `isActive = 1`.  The INTEGER column gives the
textual id numeric affinity, so a non-numeric id matches no row. -/
def sqliteFindUserById (users : List SUser) (id : String) : Option SUser :=
  match parseNat? id with
  | some n => users.find? (fun u => u.id == n && u.isActive)
  | none => none

/-- Result of running a middleware: either a response is sent (and the route
handler is never executed), or the request proceeds with `req.user` set. -/
inductive ProtectOut (U : Type) where
  | respond (status : Nat) (error : String)
  | proceed (user : U)
deriving Repr, DecidableEq

/-- The user attached by the Day 7 middleware: a mongoose document or an
SQLite row. -/
inductive DbUser where
  | mongo (u : MUser)
  | sqlite (u : SUser)
deriving Repr, DecidableEq

/-- Day 7 `protect` middleware (part_001 lines 739-808).  A missing or empty
token answers 401; an invalid/expired token answers 401; then the user is
looked up in whichever backend `canUseDB` reports.  A CastError from the
Mongo lookup is passed to `next(error)`, so the global error handler
(part_001 lines 717-736) answers 500; an absent or deactivated user answers
401; otherwise the request proceeds with the user attached. -/
def day7Protect (readyState : Nat) (sqliteUp : Bool) (mUsers : List MUser)
    (sUsers : List SUser) (authorization : Option String)
    (verify : String → JwtOut) : ProtectOut DbUser :=
  match bearerToken7 authorization with
  | none => .respond 401 "Not authorized. Please provide a token."
  | some t =>
    if t == "" then .respond 401 "Not authorized. Please provide a token."
    else
      match verify t with
      | .badToken => .respond 401 "Invalid token."
      | .expired => .respond 401 "Token expired. Please login again."
      | .ok id =>
        match (canUseDB7 readyState sqliteUp).1 with
        | .mongodb =>
          match mongoFindById MUser.oid mUsers id with
          | .castError => .respond 500 "CastError"
          | .notFound => .respond 401 "User not found or token is invalid."
          | .found u =>
            if u.isActive then .proceed (.mongo u)
            else .respond 401 "User account is deactivated."
        | .sqlite =>
          match sqliteFindUserById sUsers id with
          | none => .respond 401 "User not found or token is invalid."
          | some u =>
            if u.isActive then .proceed (.sqlite u)
            else .respond 401 "User account is deactivated."
        | .nodb => .respond 500 "Database not available."

/-- The user attached by the Day 6 middleware. -/
inductive DbUser6 where
  | mongo (u : M6User)
  | mem (u : MemUser)
deriving Repr, DecidableEq

/-- Day 6 `protect` middleware (server.js lines 1227-1280).  Unlike the Day 7
version, every failure answers 401: the catch-all at lines 1275-1278 turns a
Mongo CastError into 401 "Not authorized". -/
def day6Protect (readyState : Nat) (mUsers : List M6User) (memUsers : List MemUser)
    (authorization : Option String) (verify : String → JwtOut) :
    ProtectOut DbUser6 :=
  match bearerToken6 authorization with
  | none => .respond 401 "Not authorized, no token provided"
  | some t =>
    if t == "" then .respond 401 "Not authorized, no token provided"
    else
      match verify t with
      | .badToken => .respond 401 "Invalid token"
      | .expired => .respond 401 "Token expired"
      | .ok id =>
        if canUseDB6 readyState then
          match mongoFindById M6User.oid mUsers id with
          | .castError => .respond 401 "Not authorized"
          | .notFound => .respond 401 "User not found or token invalid"
          | .found u => .proceed (.mongo u)
        else
          match memUsers.find? (fun u => toString u.id == id) with
          | none => .respond 401 "User not found or token invalid"
          | some u => .proceed (.mem u)

/-- A jwt.verify stub that decodes every token to the fixed id `id`. -/
def fixedVerify (id : String) : String → JwtOut := fun _ => JwtOut.ok id

/-- An example Day 7 mongoose user with a well-formed ObjectId. -/
def mUserEx : MUser :=
  { oid := "aaaaaaaaaaaaaaaaaaaaaaaa", name := "Ada", email := "ada@example.com",
    password := "hash1", role := "user", isActive := true, createdAt := 0,
    lastLogin := none, v := 0 }

-- ======================================================================
-- Registration, login, and the three user stores (C2, C6, C10)
-- ======================================================================

/-- The JSON body of a registration request.  The handlers treat a missing
field and an empty string alike (both are falsy), so fields are plain
strings. -/
structure RegInput where
  name : String
  email : String
  password : String
  confirmPassword : String
deriving Repr, DecidableEq

/-- The email regex `^\S+@\S+\.\S+$` shared by the Day 5 and Day 7 servers:
the string has no whitespace and decomposes as `a@b.c` with `a`, `b`, `c`
nonempty. -/
def isValidEmail (e : String) : Bool :=
  let cs := e.data
  let n := cs.length
  cs.all (fun c => !c.isWhitespace) &&
    (List.range n).any fun i =>
      (List.range n).any fun j =>
        decide (1 ≤ i) && decide (i + 2 ≤ j) && decide (j + 2 ≤ n) &&
          cs.get? i == some (Char.ofNat 64) && cs.get? j == some (Char.ofNat 46)

/-- Day 7 registration validation (part_001:840-867), first failing check
wins; `none` means the input is valid. -/
def regValidationError7 (i : RegInput) : Option String :=
  if i.name == "" || i.email == "" || i.password == "" || i.confirmPassword == "" then
    some "All fields are required."
  else if i.password != i.confirmPassword then
    some "Passwords do not match."
  else if i.password.length < 6 then
    some "Password must be at least 6 characters."
  else if !isValidEmail i.email then
    some "Please enter a valid email address."
  else none

/-- Day 5 registration validation (server.js:940-969); identical checks, the
messages just lack the trailing period. -/
def regValidationError5 (i : RegInput) : Option String :=
  if i.name == "" || i.email == "" || i.password == "" || i.confirmPassword == "" then
    some "All fields are required"
  else if i.password != i.confirmPassword then
    some "Passwords do not match"
  else if i.password.length < 6 then
    some "Password must be at least 6 characters"
  else if !isValidEmail i.email then
    some "Please enter a valid email address"
  else none

/-- Result of a registration attempt, abstracting the response:
400 validation error, 409 duplicate email, 201 created, 500 store-level
duplicate-key error (passed to the error handler), 503 no database. -/
inductive RegOut where
  | badRequest (msg : String)
  | conflict
  | created
  | dbError (msg : String)
  | unavailable
deriving Repr, DecidableEq

/-- HTTP status of each registration outcome. -/
def regStatus : RegOut → Nat
  | .badRequest _ => 400
  | .conflict => 409
  | .created => 201
  | .dbError _ => 500
  | .unavailable => 503

/-- The full SQLite store (sqlite-db.js): users and todos tables with their
AUTOINCREMENT counters. -/
structure SqliteState where
  users : List SUser
  nextUserId : Nat
  todos : List STodo
  nextTodoId : Nat
deriving Repr, DecidableEq

/-- The empty SQLite store created by `initDatabase`. -/
def sqliteInit : SqliteState := { users := [], nextUserId := 1, todos := [], nextTodoId := 1 }

/-- The `findUserByEmail` method (sqlite-db.js:94-105): the row with this email and
`isActive = 1`. -/
def sqliteFindUserByEmail (users : List SUser) (email : String) : Option SUser :=
  users.find? (fun u => u.email == email && u.isActive)

/-- The `createUser` method (sqlite-db.js:65-92): INSERT INTO users; the UNIQUE
constraint on email rejects a duplicate (of any row, active or not) with the
duplicate-key error message. -/
def sqliteCreateUser (s : SqliteState) (name email password role : String)
    (now : Nat) : Except String (SUser × SqliteState) :=
  if s.users.any (fun u => u.email == email) then
    Except.error "User with this email already exists."
  else
    let u : SUser :=
      { id := s.nextUserId, name := name, email := email,
        password := password, role := role, isActive := true,
        createdAt := now, lastLogin := none }
    Except.ok (u, { s with users := s.users ++ [u], nextUserId := s.nextUserId + 1 })

/-- The Day 7 MongoDB store: `User` and `Todo` collections. -/
structure MongoState where
  users : List MUser
  todos : List MTodo
deriving Repr, DecidableEq

/-- The empty MongoDB store. -/
def mongoInit : MongoState := { users := [], todos := [] }

/-- Day 7 POST /api/auth/register (part_001:836-938).  After validation the
handler branches on the backend: MongoDB checks `findOne` over all users and
creates the document; SQLite checks `findUserByEmail` (active rows only) and
then `createUser`, whose UNIQUE constraint turns a remaining duplicate into a
rejected error handled by the 500 error middleware.  (The mongoose schema
additionally lowercases emails on store and query alike, which does not
change any property stated here.) -/
def day7Register (db : DbType) (ms : MongoState) (ss : SqliteState)
    (i : RegInput) (hash : String → String) (freshOid : String) (now : Nat) :
    RegOut × MongoState × SqliteState :=
  match regValidationError7 i with
  | some msg => (.badRequest msg, ms, ss)
  | none =>
    match db with
    | .nodb => (.unavailable, ms, ss)
    | .mongodb =>
      if ms.users.any (fun u => u.email == i.email) then (.conflict, ms, ss)
      else
        let u : MUser :=
          { oid := freshOid, name := i.name, email := i.email,
            password := hash i.password, role := "user", isActive := true,
            createdAt := now, lastLogin := none, v := 0 }
        (.created, { ms with users := ms.users ++ [u] }, ss)
    | .sqlite =>
      match sqliteFindUserByEmail ss.users i.email with
      | some _ => (.conflict, ms, ss)
      | none =>
        match sqliteCreateUser ss i.name i.email (hash i.password) "user" now with
        | .error msg => (.dbError msg, ms, ss)
        | .ok (_, ss2) => (.created, ms, ss2)

/-- The Day 5/6 in-memory user store (server.js:916-917). -/
structure MemState where
  users : List MemUser
  nextUserId : Nat
deriving Repr, DecidableEq

/-- The initial Day 5/6 in-memory user store: `memoryUsers = []`,
`nextMemoryUserId = 1`. -/
def memInit : MemState := { users := [], nextUserId := 1 }

/-- Day 5 POST /api/register, memory branch (server.js:935-1054): after
validation, a user with the same email answers 409 and the store is
unchanged; otherwise the user is appended with role `user`. -/
def day5RegisterMem (s : MemState) (i : RegInput) (hash : String → String)
    (now : Nat) : RegOut × MemState :=
  match regValidationError5 i with
  | some msg => (.badRequest msg, s)
  | none =>
    if s.users.any (fun u => u.email == i.email) then (.conflict, s)
    else
      let u : MemUser :=
        { id := s.nextUserId, name := i.name, email := i.email,
          password := hash i.password, role := "user", createdAt := now,
          lastLogin := now }
      (.created, { users := s.users ++ [u], nextUserId := s.nextUserId + 1 })

/-- Outcome of a login attempt. -/
inductive LoginOut where
  | badRequest
  | invalid
  | success
  | unavailable
deriving Repr, DecidableEq

/-- Day 7 POST /api/auth/login (part_001:941-1013), observable outcome.
MongoDB looks the user up among all documents, SQLite among active rows;
a missing user and a failed bcrypt comparison both yield `invalid`.
(On success the handler also refreshes lastLogin; see the reachability
steps.) -/
def day7Login (db : DbType) (ms : MongoState) (ss : SqliteState)
    (email password : String) (bcmp : String → String → Bool) : LoginOut :=
  if email == "" || password == "" then .badRequest
  else
    match db with
    | .nodb => .unavailable
    | .mongodb =>
      match ms.users.find? (fun u => u.email == email) with
      | none => .invalid
      | some u => if bcmp password u.password then .success else .invalid
    | .sqlite =>
      match sqliteFindUserByEmail ss.users email with
      | none => .invalid
      | some u => if bcmp password u.password then .success else .invalid

/-- Status code of a Day 7 login outcome. -/
def day7LoginStatus : LoginOut → Nat
  | .badRequest => 400
  | .invalid => 401
  | .success => 200
  | .unavailable => 503

/-- Error body of a Day 7 login outcome (`none` on success). -/
def day7LoginError : LoginOut → Option String
  | .badRequest => some "Email and password are required."
  | .invalid => some "Invalid credentials."
  | .success => none
  | .unavailable => some "Database service unavailable."

/-- Day 5 POST /api/login (server.js:1057-1146), observable outcome; the
MongoDB branch and the memory branch perform the same lookup-then-compare
sequence. -/
def day5Login (dbUp : Bool) (mUsers : List M6User) (s : MemState)
    (email password : String) (bcmp : String → String → Bool) : LoginOut :=
  if email == "" || password == "" then .badRequest
  else if dbUp then
    match mUsers.find? (fun u => u.email == email) with
    | none => .invalid
    | some u => if bcmp password u.password then .success else .invalid
  else
    match s.users.find? (fun u => u.email == email) with
    | none => .invalid
    | some u => if bcmp password u.password then .success else .invalid

/-- Status code of a Day 5 login outcome. -/
def day5LoginStatus : LoginOut → Nat
  | .badRequest => 400
  | .invalid => 401
  | .success => 200
  | .unavailable => 500

/-- Error body of a Day 5 login outcome. -/
def day5LoginError : LoginOut → Option String
  | .badRequest => some "Email and password are required"
  | .invalid => some "Invalid credentials"
  | .success => none
  | .unavailable => some "unreachable"

-- ======================================================================
-- Todos: creation, update, deletion (C3, C5, C8, C9)
-- ======================================================================

/-- The JSON body of a POST /api/todos request (Day 7 field set). -/
structure CreateTodoBody where
  task : Option String
  description : Option String
  priority : Option String
  dueDate : Option String
  tags : Option (List String)
deriving Repr, DecidableEq

/-- Is the task field missing, empty, or shorter than 3 characters after
trimming?  This is the shared `!task || task.trim().length < 3` check of the
Day 4, Day 6 and Day 7 create handlers. -/
def badTask (task : Option String) : Bool :=
  match task with
  | none => true
  | some t => t == "" || decide ((jsTrim t).length < 3)

/-- The `createTodo` method (sqlite-db.js:150-178): INSERT INTO todos with defaults
`completed = 0`, `priority = 'medium'`, both timestamps set to now. -/
def sqliteCreateTodo (s : SqliteState) (task : String) (description : Option String)
    (priority : Option String) (dueDate : Option String) (userId : Nat)
    (tags : List String) (now : Nat) : STodo × SqliteState :=
  let t : STodo :=
    { id := s.nextTodoId, task := task, description := description,
      completed := false, priority := priority.getD "medium",
      dueDate := dueDate, userId := userId, tags := tags, createdAt := now,
      updatedAt := now }
  (t, { s with todos := s.todos ++ [t], nextTodoId := s.nextTodoId + 1 })

/-- Day 7 POST /api/todos, SQLite branch (part_001:1076-1119): validate the
task, then insert the trimmed fields with the authenticated user's id as the
owner.  A falsy (absent or empty) description or dueDate is stored as NULL,
a missing tags array as the empty list, tags are trimmed. -/
def day7CreateTodoSqlite (s : SqliteState) (b : CreateTodoBody) (userId : Nat)
    (now : Nat) : Except String STodo × SqliteState :=
  if badTask b.task then
    (.error "Task is required and must be at least 3 characters.", s)
  else
    let description := match b.description with
      | some d => if d == "" then none else some (jsTrim d)
      | none => none
    let dueDate := match b.dueDate with
      | some d => if d == "" then none else some d
      | none => none
    let priority := match b.priority with
      | some p => if p == "" then "medium" else p
      | none => "medium"
    let res := sqliteCreateTodo s (jsTrim (b.task.getD "")) description
      (some priority) dueDate userId ((b.tags.getD []).map jsTrim) now
    (.ok res.1, res.2)

/-- Day 7 POST /api/todos, MongoDB branch (part_001:1076-1119): same
validation and trimming; the document is created with `user` set to the
authenticated user's id. -/
def day7CreateTodoMongo (s : MongoState) (b : CreateTodoBody) (userId : String)
    (freshOid : String) (now : Nat) : Except String MTodo × MongoState :=
  if badTask b.task then
    (.error "Task is required and must be at least 3 characters.", s)
  else
    let description := match b.description with
      | some d => if d == "" then none else some (jsTrim d)
      | none => none
    let dueDate := match b.dueDate with
      | some d => if d == "" then none else some d
      | none => none
    let priority := match b.priority with
      | some p => if p == "" then "medium" else p
      | none => "medium"
    let t : MTodo :=
      { oid := freshOid, task := jsTrim (b.task.getD ""),
        description := description, completed := false, priority := priority,
        dueDate := dueDate, user := userId,
        tags := (b.tags.getD []).map jsTrim, createdAt := now,
        updatedAt := now, v := 0 }
    (.ok t, { s with todos := s.todos ++ [t] })

/-- Update payload built by the PUT /api/todos/:id handlers: one entry per
field the request body defined.  A defined dueDate may itself be null. -/
structure TodoUpdates where
  task : Option String
  description : Option String
  completed : Option Bool
  priority : Option String
  dueDate : Option (Option String)
  tags : Option (List String)
deriving Repr, DecidableEq

/-- The update payload that defines no field. -/
def noUpdates : TodoUpdates :=
  { task := none, description := none, completed := none, priority := none,
    dueDate := none, tags := none }

/-- The SET clause of `updateTodo` (sqlite-db.js:252-277): every defined
field is replaced, `updatedAt` is set to CURRENT_TIMESTAMP, every other
column keeps its value. -/
def applyTodoUpdates (upd : TodoUpdates) (now : Nat) (t : STodo) : STodo :=
  { t with
    task := upd.task.getD t.task
    description := match upd.description with
      | some d => some d
      | none => t.description
    completed := upd.completed.getD t.completed
    priority := upd.priority.getD t.priority
    dueDate := match upd.dueDate with
      | some d => d
      | none => t.dueDate
    tags := upd.tags.getD t.tags
    updatedAt := now }

/-- The `updateTodo` method (sqlite-db.js:246-309): UPDATE todos SET ... WHERE id = ?
AND userId = ?; zero changed rows yields null and leaves the table as is,
otherwise the updated row is re-selected by id. -/
def sqliteUpdateTodo (s : SqliteState) (id userId : Nat) (upd : TodoUpdates)
    (now : Nat) : Option STodo × SqliteState :=
  if s.todos.any (fun t => t.id == id && t.userId == userId) then
    let todos := s.todos.map fun t =>
      if t.id == id && t.userId == userId then applyTodoUpdates upd now t else t
    (todos.find? (fun t => t.id == id), { s with todos := todos })
  else (none, s)

/-- The `deleteTodo` method (sqlite-db.js:311-322): DELETE FROM todos WHERE id = ? AND
userId = ?; returns whether a row was deleted. -/
def sqliteDeleteTodo (s : SqliteState) (id userId : Nat) : Bool × SqliteState :=
  (s.todos.any (fun t => t.id == id && t.userId == userId),
   { s with todos := s.todos.filter fun t => !(t.id == id && t.userId == userId) })

/-- The mongoose `$set` semantics of the Day 7 PUT handler's `updates` object
together with `timestamps: true`, which refreshes `updatedAt` on
findOneAndUpdate. -/
def applyMTodoUpdates (upd : TodoUpdates) (now : Nat) (t : MTodo) : MTodo :=
  { t with
    task := upd.task.getD t.task
    description := match upd.description with
      | some d => some d
      | none => t.description
    completed := upd.completed.getD t.completed
    priority := upd.priority.getD t.priority
    dueDate := match upd.dueDate with
      | some d => d
      | none => t.dueDate
    tags := upd.tags.getD t.tags
    updatedAt := now }

/-- The call `Todo.findOneAndUpdate` on the owner filter with `new: true`
of the Day 7 PUT handler (part_001:1242-1246): update the owner's document
in place and return it, or null when no document matches. -/
def mongoUpdateTodo (s : MongoState) (id userId : String) (upd : TodoUpdates)
    (now : Nat) : Option MTodo × MongoState :=
  if s.todos.any (fun t => t.oid == id && t.user == userId) then
    let todos := s.todos.map fun t =>
      if t.oid == id && t.user == userId then applyMTodoUpdates upd now t else t
    (todos.find? (fun t => t.oid == id), { s with todos := todos })
  else (none, s)

/-- The JSON body of a PUT /api/todos/:id request (Day 7 field set). -/
structure PutTodoBody where
  task : Option String
  description : Option String
  completed : Option Bool
  priority : Option String
  dueDate : Option (Option String)
  tags : Option (List String)
deriving Repr, DecidableEq

/-- Outcome of a PUT /api/todos/:id request. -/
inductive PutOut (T : Type) where
  | badRequest (msg : String)
  | notFound
  | updated (t : T)
deriving Repr, DecidableEq

/-- The `updates` object built by the Day 7 PUT handler (part_001:1248-1254,
SQLite branch): each field defined in the body is passed through, task and
description trimmed. -/
def day7PutUpdates (b : PutTodoBody) : TodoUpdates :=
  { task := b.task.map jsTrim
    description := b.description.map jsTrim
    completed := b.completed
    priority := b.priority
    dueDate := b.dueDate
    tags := b.tags }

/-- The `task && task.trim().length < 3` validation of the PUT handlers: a
defined, truthy task that trims to fewer than 3 characters. -/
def putTaskInvalid (task : Option String) : Bool :=
  match task with
  | some t => t != "" && decide ((jsTrim t).length < 3)
  | none => false

/-- Day 7 PUT /api/todos/:id, SQLite branch (part_001:1218-1274): a defined,
non-empty task shorter than 3 characters after trimming is rejected with
400; otherwise the defined fields are handed to `updateTodo` and a null
result answers 404. -/
def day7PutTodoSqlite (s : SqliteState) (id userId : Nat) (b : PutTodoBody)
    (now : Nat) : PutOut STodo × SqliteState :=
  if putTaskInvalid b.task then
    (.badRequest "Task must be at least 3 characters.", s)
  else
    let res := sqliteUpdateTodo s id userId (day7PutUpdates b) now
    ((match res.1 with
      | some r => .updated r
      | none => .notFound), res.2)

/-- The mongoose-branch update payload of the Day 7 PUT handler
(part_001:1234-1240): like `day7PutUpdates` but each tag is trimmed. -/
def day7PutUpdatesMongo (b : PutTodoBody) : TodoUpdates :=
  { day7PutUpdates b with tags := b.tags.map (fun l => l.map jsTrim) }

/-- Day 7 PUT /api/todos/:id, MongoDB branch (part_001:1218-1274), for a
well-formed ObjectId: same validation, with the mongoose update payload. -/
def day7PutTodoMongo (s : MongoState) (id userId : String) (b : PutTodoBody)
    (now : Nat) : PutOut MTodo × MongoState :=
  if putTaskInvalid b.task then
    (.badRequest "Task must be at least 3 characters.", s)
  else
    let res := mongoUpdateTodo s id userId (day7PutUpdatesMongo b) now
    ((match res.1 with
      | some r => .updated r
      | none => .notFound), res.2)

/-- The Day 6 in-memory todo store (server.js:811-816). -/
structure D6MemState where
  todos : List D6Todo
  nextId : Nat
deriving Repr, DecidableEq

/-- The initial Day 6 in-memory todo store: the three seed todos and
`nextMemoryId = 4`. -/
def d6MemInit : D6MemState := { todos := day6MemoryTodosInit, nextId := 4 }

/-- Day 6 PUT /api/todos/:id, memory branch (server.js:1453-1475): find the
requester's todo by id and owner, replace exactly the defined fields among
task (trimmed), completed, priority, refresh updatedAt; a missing todo
answers 404. -/
def day6PutTodoMem (s : D6MemState) (id : Nat) (userId : Nat)
    (task : Option String) (completed : Option Bool) (priority : Option String)
    (now : Nat) : PutOut D6Todo × D6MemState :=
  if s.todos.any (fun t => t.id == id && t.userId == some userId) then
    let todos := s.todos.map fun t =>
      if t.id == id && t.userId == some userId then
        { t with
          task := match task with | some v => jsTrim v | none => t.task
          completed := completed.getD t.completed
          priority := priority.getD t.priority
          updatedAt := some now }
      else t
    match todos.find? (fun t => t.id == id && t.userId == some userId) with
    | some r => (.updated r, { s with todos := todos })
    | none => (.notFound, { s with todos := todos })
  else (.notFound, s)

/-- Day 6 POST /api/todos, memory branch (server.js:1349-1417): validate the
task, then push a todo owned by the authenticated user. -/
def day6CreateTodoMem (s : D6MemState) (task : Option String)
    (priority : Option String) (userId : Nat) (now : Nat) :
    Except String D6Todo × D6MemState :=
  if badTask task then
    (.error "Task is required and must be at least 3 characters", s)
  else
    let t : D6Todo :=
      { id := s.nextId, task := jsTrim (task.getD ""), completed := false,
        priority := priority.getD "medium",
        userId := some userId, createdAt := some now, updatedAt := some now }
    (.ok t, { todos := s.todos ++ [t], nextId := s.nextId + 1 })

/-- A Day 4 in-memory todo (server.js:192-196); the Day 4 server has no user
accounts at all. -/
structure D4Todo where
  id : Nat
  task : String
  completed : Bool
  priority : String
  createdAt : Option Nat
  updatedAt : Option Nat
deriving Repr, DecidableEq

/-- The Day 4 in-memory todo store and its seeds (server.js:192-197). -/
structure D4MemState where
  todos : List D4Todo
  nextId : Nat
deriving Repr, DecidableEq

/-- Day 4 POST /api/todos, memory branch (server.js:249-298): validate the
task, then push the new todo. -/
def day4CreateTodoMem (s : D4MemState) (task : Option String)
    (priority : Option String) (now : Nat) : Except String D4Todo × D4MemState :=
  if badTask task then
    (.error "Task is required and must be at least 3 characters", s)
  else
    let t : D4Todo :=
      { id := s.nextId, task := jsTrim (task.getD ""), completed := false,
        priority := priority.getD "medium",
        createdAt := some now, updatedAt := some now }
    (.ok t, { todos := s.todos ++ [t], nextId := s.nextId + 1 })

-- ======================================================================
-- Reachability of the backend stores (C2, C3)
-- ======================================================================

/-- The `updateUserLastLogin` method (sqlite-db.js:120-131). -/
def sqliteTouchLastLogin (s : SqliteState) (userId : Nat) (now : Nat) : SqliteState :=
  { s with users := s.users.map fun u =>
      if u.id == userId then { u with lastLogin := some now } else u }

/-- The `updateUserName` method (sqlite-db.js:133-144). -/
def sqliteUpdateUserName (s : SqliteState) (userId : Nat) (name : String) : SqliteState :=
  { s with users := s.users.map fun u =>
      if u.id == userId then { u with name := name } else u }

/-- The lastLogin refresh `User.findByIdAndUpdate` of the Day 7 login handler. -/
def mongoTouchLastLogin (s : MongoState) (userId : String) (now : Nat) : MongoState :=
  { s with users := s.users.map fun u =>
      if u.oid == userId then { u with lastLogin := some now } else u }

/-- The rename `User.findByIdAndUpdate` of the Day 7 profile handler. -/
def mongoUpdateUserName (s : MongoState) (userId : String) (name : String) : MongoState :=
  { s with users := s.users.map fun u =>
      if u.oid == userId then { u with name := name } else u }

/-- The call `Todo.findOneAndDelete` on the owner filter of the Day 7 DELETE
handler (part_001:1284). -/
def mongoDeleteTodo (s : MongoState) (id userId : String) : Bool × MongoState :=
  (s.todos.any (fun t => t.oid == id && t.user == userId),
   { s with todos := s.todos.filter fun t => !(t.oid == id && t.user == userId) })

/-- States of the SQLite store reachable through the Day 7 server: user
registration, todo creation by an authenticated (hence existing, active)
user, todo update and deletion, lastLogin refresh and profile rename.  No
route deletes a user. -/
inductive SqliteReach : SqliteState → Prop where
  | init : SqliteReach sqliteInit
  | register (ms s i hash oid now) : SqliteReach s →
      SqliteReach (day7Register .sqlite ms s i hash oid now).2.2
  | createTodo (s b uid now) : SqliteReach s →
      (∃ u ∈ s.users, u.id = uid) →
      SqliteReach (day7CreateTodoSqlite s b uid now).2
  | putTodo (s id uid b now) : SqliteReach s →
      SqliteReach (day7PutTodoSqlite s id uid b now).2
  | deleteTodo (s id uid) : SqliteReach s →
      SqliteReach (sqliteDeleteTodo s id uid).2
  | touchLastLogin (s uid now) : SqliteReach s →
      SqliteReach (sqliteTouchLastLogin s uid now)
  | rename (s uid name) : SqliteReach s →
      SqliteReach (sqliteUpdateUserName s uid name)

/-- States of the MongoDB store reachable through the Day 7 server; the
`createTodo` step records that the owner id comes from the authenticated
`req.user` attached by the middleware, so it is the id of an existing user. -/
inductive MongoReach : MongoState → Prop where
  | init : MongoReach mongoInit
  | register (s ss i hash oid now) : MongoReach s →
      MongoReach (day7Register .mongodb s ss i hash oid now).2.1
  | createTodo (s b uid oid now) : MongoReach s →
      (∃ u ∈ s.users, u.oid = uid) →
      MongoReach (day7CreateTodoMongo s b uid oid now).2
  | putTodo (s id uid b now) : MongoReach s →
      MongoReach (day7PutTodoMongo s id uid b now).2
  | deleteTodo (s id uid) : MongoReach s →
      MongoReach (mongoDeleteTodo s id uid).2
  | touchLastLogin (s uid now) : MongoReach s →
      MongoReach (mongoTouchLastLogin s uid now)
  | rename (s uid name) : MongoReach s →
      MongoReach (mongoUpdateUserName s uid name)

/-- States of the Day 5/6 in-memory user list reachable through the Day 5/6
server: the only operation that modifies `memoryUsers` besides registration
is the login handler's lastLogin refresh. -/
inductive MemReach : MemState → Prop where
  | init : MemReach memInit
  | register (s i hash now) : MemReach s →
      MemReach (day5RegisterMem s i hash now).2
  | touchLastLogin (s uid now) : MemReach s →
      MemReach { s with users := s.users.map fun u =>
        if u.id == uid then { u with lastLogin := now } else u }

-- ======================================================================
-- Concrete example values used by witnesses and counterexamples
-- ======================================================================

/-- A stand-in bcrypt hash function (any function works for the theorems). -/
def idHash : String → String := fun s => String.append "h-" s

/-- An example Day 5/6 in-memory user. -/
def memUserEx1 : MemUser :=
  { id := 1, name := "Ada", email := "ada@example.com", password := "hashA",
    role := "user", createdAt := 0, lastLogin := 0 }

/-- A valid registration input whose email duplicates `memUserEx1`. -/
def regInputEx : RegInput :=
  { name := "Bob", email := "ada@example.com", password := "secret1",
    confirmPassword := "secret1" }

/-- An example create-todo body with only a task. -/
def createBodyEx : CreateTodoBody :=
  { task := some "write tests", description := none, priority := none,
    dueDate := none, tags := none }

/-- The todo produced by `day7CreateTodoSqlite sqliteInit createBodyEx 1 0`. -/
def sTodoEx : STodo :=
  { id := 1, task := "write tests", description := none, completed := false,
    priority := "medium", dueDate := none, userId := 1, tags := [],
    createdAt := 0, updatedAt := 0 }

/-- An example update body defining only `completed`. -/
def putBodyEx : PutTodoBody :=
  { task := none, description := none, completed := some true, priority := none,
    dueDate := none, tags := none }

/-- An example SQLite store holding only `sTodoEx`. -/
def c5StateEx : SqliteState :=
  { users := [], nextUserId := 1, todos := [sTodoEx], nextTodoId := 2 }

/-- Day 7 GET /api/todos/:id (part_001:1189-1215), MongoDB branch, status
code only: an ill-formed ObjectId makes `findOne` raise a CastError which is
passed to next, so the error middleware answers 500; otherwise an absent or
foreign todo answers 404 and an owned one 200. -/
def day7GetTodoMongoStatus (s : MongoState) (id uid : String) : Nat :=
  if isValidObjectId id then
    match s.todos.find? (fun t => t.oid == id && t.user == uid) with
    | some _ => 200
    | none => 404
  else 500

/-- Day 7 GET /api/todos/:id, SQLite branch (`getTodoById`,
sqlite-db.js:226-244), status code only: the TEXT id is compared against the
INTEGER column with numeric affinity, so a non-numeric id simply matches no
row and answers 404. -/
def day7GetTodoSqliteStatus (s : SqliteState) (id : String) (uid : Nat) : Nat :=
  match parseNat? id with
  | some n =>
    match s.todos.find? (fun t => t.id == n && t.userId == uid) with
    | some _ => 200
    | none => 404
  | none => 404

/-- Removing a user document from the Day 7 MongoDB backend.  The repository
defines no user-removal route, and the Day 7 `todoSchema` (part_001:642-685)
declares no deletion hook or cascade: removing the user document leaves the
todos collection untouched. -/
def mongoRemoveUser (s : MongoState) (uid : String) : MongoState :=
  { s with users := s.users.filter fun u => !(u.oid == uid) }

/-- Modelled from the spec: deleting a user row in the SQLite store under
the schema's declared `FOREIGN KEY(userId) REFERENCES users(id) ON DELETE
CASCADE` (sqlite-db.js:44), assuming foreign-key enforcement is on.  No
route of the repository invokes a user deletion, and the code never issues
`PRAGMA foreign_keys = ON`, which SQLite requires for the cascade to act at
runtime. -/
def sqliteDeleteUserCascade (s : SqliteState) (uid : Nat) : SqliteState :=
  { s with users := s.users.filter fun u => !(u.id == uid),
           todos := s.todos.filter fun t => !(t.userId == uid) }

/-- An example Day 7 SQLite user row. -/
def sUserEx : SUser :=
  { id := 1, name := "Ada", email := "ada@example.com", password := "hashA",
    role := "user", isActive := true, createdAt := 0, lastLogin := none }

/-- An example Day 7 mongoose todo owned by `mUserEx`. -/
def mTodoEx : MTodo :=
  { oid := "bbbbbbbbbbbbbbbbbbbbbbbb", task := "write tests",
    description := none, completed := false, priority := "medium",
    dueDate := none, user := "aaaaaaaaaaaaaaaaaaaaaaaa", tags := [],
    createdAt := 0, updatedAt := 0, v := 0 }

/-- A Mongo store holding `mUserEx` and a todo it owns. -/
def c8StateEx : MongoState := { users := [mUserEx], todos := [mTodoEx] }

/-- An SQLite store holding `sUserEx` and `sTodoEx` (owned by user 1). -/
def c8SqliteEx : SqliteState :=
  { users := [sUserEx], nextUserId := 2, todos := [sTodoEx], nextTodoId := 2 }

/-- A bcrypt comparison stub that rejects every password. -/
def alwaysFailBcmp : String → String → Bool := fun _ _ => false

/-- A create-todo body whose task is too short. -/
def c9BodyEx : CreateTodoBody :=
  { task := some "ab", description := none, priority := none, dueDate := none,
    tags := none }

/-- A second example SQLite todo, owned by user 2. -/
def sTodoEx2 : STodo :=
  { id := 2, task := "review code", description := none, completed := false,
    priority := "low", dueDate := none, userId := 2, tags := [],
    createdAt := 0, updatedAt := 0 }

/-- An SQLite store with two users and one todo each. -/
def c8SqliteEx2 : SqliteState :=
  { users := [sUserEx], nextUserId := 3, todos := [sTodoEx, sTodoEx2],
    nextTodoId := 3 }

-- ======================================================================
-- Response bodies (C4, C7): serialization of user and todo records
-- ======================================================================

/-- Day 7 `userSchema.methods.toJSON` (part_001:632-637): the document
converted to a plain object with `password` and `__v` deleted.  This is the
serialization express applies in `res.json` for mongoose user documents. -/
def mUserToJSON (u : MUser) : Jx :=
  Jx.obj ([("_id", Jx.str u.oid), ("name", Jx.str u.name),
    ("email", Jx.str u.email), ("role", Jx.str u.role),
    ("isActive", Jx.jbool u.isActive), ("createdAt", Jx.num u.createdAt)]
    ++ optField "lastLogin" (u.lastLogin.map fun n => Jx.num n))

/-- The user object of the Day 7 update-profile response, MongoDB branch
(part_001:1039-1047): `toObject()` (which keeps `_id` and `__v`) with only
`password` deleted - unlike the register response, no `id` field is added. -/
def mUserObjectNoPassJx (u : MUser) : Jx :=
  Jx.obj ([("_id", Jx.str u.oid), ("name", Jx.str u.name),
    ("email", Jx.str u.email), ("role", Jx.str u.role),
    ("isActive", Jx.jbool u.isActive), ("createdAt", Jx.num u.createdAt)]
    ++ optField "lastLogin" (u.lastLogin.map fun n => Jx.num n)
    ++ [("__v", Jx.num u.v)])

/-- The user object of the Day 7 register response, MongoDB branch
(part_001:898-905, 924): `toObject()` (which keeps `_id` and `__v`), an
added string `id`, and `delete user.password`. -/
def mUserRegisterJx (u : MUser) : Jx :=
  Jx.obj ([("_id", Jx.str u.oid), ("name", Jx.str u.name),
    ("email", Jx.str u.email), ("role", Jx.str u.role),
    ("isActive", Jx.jbool u.isActive), ("createdAt", Jx.num u.createdAt)]
    ++ optField "lastLogin" (u.lastLogin.map fun n => Jx.num n)
    ++ [("__v", Jx.num u.v), ("id", Jx.str u.oid)])

/-- The user object of the Day 7 login response, MongoDB branch
(part_001:962-999): `toObject()` with `password` deleted and `_id` replaced
by the string `id`. -/
def mUserLoginJx (u : MUser) : Jx :=
  Jx.obj ([("name", Jx.str u.name), ("email", Jx.str u.email),
    ("role", Jx.str u.role), ("isActive", Jx.jbool u.isActive),
    ("createdAt", Jx.num u.createdAt)]
    ++ optField "lastLogin" (u.lastLogin.map fun n => Jx.num n)
    ++ [("__v", Jx.num u.v), ("id", Jx.str u.oid)])

/-- A Day 7 admin-list user, MongoDB branch (part_001:1358):
`find().select('-password -__v')`. -/
def mUserAdminJx (u : MUser) : Jx :=
  Jx.obj ([("_id", Jx.str u.oid), ("name", Jx.str u.name),
    ("email", Jx.str u.email), ("role", Jx.str u.role),
    ("isActive", Jx.jbool u.isActive), ("createdAt", Jx.num u.createdAt)]
    ++ optField "lastLogin" (u.lastLogin.map fun n => Jx.num n))

/-- The object `createUser` resolves with (sqlite-db.js:80-87): id, name,
email, role, isActive, createdAt - and no password. -/
def sUserCreatedJx (u : SUser) : Jx :=
  Jx.obj [("id", Jx.num u.id), ("name", Jx.str u.name),
    ("email", Jx.str u.email), ("role", Jx.str u.role),
    ("isActive", Jx.jbool u.isActive), ("createdAt", Jx.num u.createdAt)]

/-- A SQLite user row without its password: the column list of
`findUserById`/`getAllUsers` (sqlite-db.js:110, 360), equally the login
handler's SELECT * row after `delete user.password` (part_001:995).  SQL
null surfaces as JSON null. -/
def sUserNoPassJx (u : SUser) : Jx :=
  Jx.obj [("id", Jx.num u.id), ("name", Jx.str u.name),
    ("email", Jx.str u.email), ("role", Jx.str u.role),
    ("isActive", Jx.jbool u.isActive), ("createdAt", Jx.num u.createdAt),
    ("lastLogin", match u.lastLogin with
      | some n => Jx.num n
      | none => Jx.null)]

/-- A Day 7 mongoose todo as a plain object (`toObject()`/`lean()`). -/
def mTodoJx (t : MTodo) : Jx :=
  Jx.obj ([("_id", Jx.str t.oid), ("task", Jx.str t.task)]
    ++ optField "description" (t.description.map Jx.str)
    ++ [("completed", Jx.jbool t.completed), ("priority", Jx.str t.priority)]
    ++ optField "dueDate" (t.dueDate.map Jx.str)
    ++ [("user", Jx.str t.user), ("tags", Jx.arr (t.tags.map Jx.str)),
      ("createdAt", Jx.num t.createdAt), ("updatedAt", Jx.num t.updatedAt),
      ("__v", Jx.num t.v)])

/-- A SQLite todo row (SELECT *, tags parsed, completed converted to a
boolean; sqlite-db.js:214-219): nullable columns surface as JSON null. -/
def sTodoRowJx (t : STodo) : Jx :=
  Jx.obj [("id", Jx.num t.id), ("task", Jx.str t.task),
    ("description", match t.description with
      | some d => Jx.str d
      | none => Jx.null),
    ("completed", Jx.jbool t.completed), ("priority", Jx.str t.priority),
    ("dueDate", match t.dueDate with
      | some d => Jx.str d
      | none => Jx.null),
    ("userId", Jx.num t.userId), ("tags", Jx.arr (t.tags.map Jx.str)),
    ("createdAt", Jx.num t.createdAt), ("updatedAt", Jx.num t.updatedAt)]

/-- The object `createTodo` resolves with (sqlite-db.js:167-173):
`{id, ...todoData, completed, createdAt, updatedAt}`; spread fields that
were undefined are simply absent. -/
def sTodoCreatedJx (t : STodo) : Jx :=
  Jx.obj ([("id", Jx.num t.id), ("task", Jx.str t.task)]
    ++ optField "description" (t.description.map Jx.str)
    ++ [("priority", Jx.str t.priority)]
    ++ optField "dueDate" (t.dueDate.map Jx.str)
    ++ [("userId", Jx.num t.userId), ("tags", Jx.arr (t.tags.map Jx.str)),
      ("completed", Jx.jbool t.completed), ("createdAt", Jx.num t.createdAt),
      ("updatedAt", Jx.num t.updatedAt)])

/-- A Day 7 admin-list todo, MongoDB branch (part_001:1378):
`populate('user', 'name email')` replaces the user reference by a
`{_id, name, email}` object. -/
def mTodoAdminJx (t : MTodo) (userName userEmail : String) : Jx :=
  Jx.obj ([("_id", Jx.str t.oid), ("task", Jx.str t.task)]
    ++ optField "description" (t.description.map Jx.str)
    ++ [("completed", Jx.jbool t.completed), ("priority", Jx.str t.priority)]
    ++ optField "dueDate" (t.dueDate.map Jx.str)
    ++ [("user", Jx.obj [("_id", Jx.str t.user), ("name", Jx.str userName),
        ("email", Jx.str userEmail)]),
      ("tags", Jx.arr (t.tags.map Jx.str)),
      ("createdAt", Jx.num t.createdAt), ("updatedAt", Jx.num t.updatedAt),
      ("__v", Jx.num t.v)])

/-- A Day 7 admin-list todo, SQLite branch (`getAllTodos`,
sqlite-db.js:370-395): the row columns plus `userName`, `userEmail` and a
nested `user` object with name and email. -/
def sTodoAdminJx (t : STodo) (userName userEmail : String) : Jx :=
  Jx.obj [("id", Jx.num t.id), ("task", Jx.str t.task),
    ("description", match t.description with
      | some d => Jx.str d
      | none => Jx.null),
    ("completed", Jx.jbool t.completed), ("priority", Jx.str t.priority),
    ("dueDate", match t.dueDate with
      | some d => Jx.str d
      | none => Jx.null),
    ("userId", Jx.num t.userId),
    ("userName", Jx.str userName), ("userEmail", Jx.str userEmail),
    ("tags", Jx.arr (t.tags.map Jx.str)),
    ("createdAt", Jx.num t.createdAt), ("updatedAt", Jx.num t.updatedAt),
    ("user", Jx.obj [("name", Jx.str userName), ("email", Jx.str userEmail)])]

/-- Every JSON response the Day 7 server can send (one constructor per
`res.json` site of the fourth document of part_001, parameterized by the
data each site serializes).  `err` covers every `{success: false, error}`
site (validation errors, 401/403/404/409/503 responses and the production
error handler); `errDev` is the development error handler, which adds the
stack. -/
inductive Day7Resp where
  | err (status : Nat) (msg : String)
  | errDev (status : Nat) (msg : String) (stack : String)
  | health (dbType : String) (connected : Bool) (timestamp : String)
      (uptime : Nat) (rss heapTotal heapUsed env : String)
  | apiStatus (dbType : String) (connected : Bool)
  | registerMongo (u : MUser) (token expiresIn : String)
  | registerSqlite (u : SUser) (token expiresIn : String)
  | loginMongo (u : MUser) (token expiresIn : String)
  | loginSqlite (u : SUser) (token expiresIn : String)
  | profileMongo (u : MUser)
  | profileSqlite (u : SUser)
  | updateProfileMongo (u : MUser)
  | updateProfileSqlite (u : SUser)
  | logout
  | createTodoMongo (t : MTodo)
  | createTodoSqlite (t : STodo)
  | todosListMongo (ts : List MTodo) (page limit total pages : Nat)
  | todosListSqlite (ts : List STodo) (page limit total pages : Nat)
  | todoMongo (t : MTodo)
  | todoSqlite (t : STodo)
  | putTodoMongo (t : MTodo)
  | putTodoSqlite (t : STodo)
  | deleteTodo
  | stats (total completed pending hi mid lo : Nat)
  | adminUsersMongo (us : List MUser)
  | adminUsersSqlite (us : List SUser)
  | adminTodosMongo (ts : List (MTodo × String × String))
  | adminTodosSqlite (ts : List (STodo × String × String))

/-- HTTP status code of each Day 7 response. -/
def day7Status : Day7Resp → Nat
  | .err st _ => st
  | .errDev st _ _ => st
  | .registerMongo _ _ _ => 201
  | .registerSqlite _ _ _ => 201
  | .createTodoMongo _ => 201
  | .createTodoSqlite _ => 201
  | _ => 200

/-- JSON body of each Day 7 response, field for field as the handlers build
it (part_001, fourth document). -/
def day7Body : Day7Resp → Jx
  | .err _ msg => Jx.obj [("success", Jx.jbool false), ("error", Jx.str msg)]
  | .errDev _ msg stack =>
    Jx.obj [("success", Jx.jbool false), ("error", Jx.str msg),
      ("stack", Jx.str stack)]
  | .health dbType connected timestamp uptime rss heapTotal heapUsed env =>
    Jx.obj [("success", Jx.jbool true),
      ("data", Jx.obj [("status", Jx.str "healthy"),
        ("timestamp", Jx.str timestamp), ("uptime", Jx.num uptime),
        ("database", Jx.obj [("type", Jx.str dbType),
          ("connected", Jx.jbool connected)]),
        ("memory", Jx.obj [("rss", Jx.str rss),
          ("heapTotal", Jx.str heapTotal), ("heapUsed", Jx.str heapUsed)]),
        ("environment", Jx.str env)])]
  | .apiStatus dbType connected =>
    Jx.obj [("success", Jx.jbool true),
      ("data", Jx.obj [("api", Jx.str "Todo API v1.0"),
        ("version", Jx.str "1.0.0"), ("status", Jx.str "operational"),
        ("database", Jx.obj [("type", Jx.str dbType),
          ("connected", Jx.jbool connected)]),
        ("features", Jx.arr [Jx.str "User Authentication (JWT)",
          Jx.str "Todo CRUD Operations", Jx.str "User-specific Data",
          Jx.str "Pagination & Filtering", Jx.str "Statistics & Analytics",
          Jx.str "Admin Dashboard", Jx.str "CORS Enabled",
          Jx.str "Rate Limiting", Jx.str "Security Headers"]),
        ("endpoints", Jx.obj [("auth", Jx.arr [Jx.str "/api/auth/register",
            Jx.str "/api/auth/login", Jx.str "/api/auth/profile"]),
          ("todos", Jx.arr [Jx.str "/api/todos", Jx.str "/api/todos/:id",
            Jx.str "/api/todos/stats"]),
          ("admin", Jx.arr [Jx.str "/api/admin/users",
            Jx.str "/api/admin/todos"])]),
        ("documentation", Jx.str "See README for API documentation")])]
  | .registerMongo u token expiresIn =>
    Jx.obj [("success", Jx.jbool true),
      ("message", Jx.str "User registered successfully."),
      ("data", Jx.obj [("user", mUserRegisterJx u), ("token", Jx.str token),
        ("expiresIn", Jx.str expiresIn)])]
  | .registerSqlite u token expiresIn =>
    Jx.obj [("success", Jx.jbool true),
      ("message", Jx.str "User registered successfully."),
      ("data", Jx.obj [("user", sUserCreatedJx u), ("token", Jx.str token),
        ("expiresIn", Jx.str expiresIn)])]
  | .loginMongo u token expiresIn =>
    Jx.obj [("success", Jx.jbool true),
      ("message", Jx.str "Login successful."),
      ("data", Jx.obj [("user", mUserLoginJx u), ("token", Jx.str token),
        ("expiresIn", Jx.str expiresIn)])]
  | .loginSqlite u token expiresIn =>
    Jx.obj [("success", Jx.jbool true),
      ("message", Jx.str "Login successful."),
      ("data", Jx.obj [("user", sUserNoPassJx u), ("token", Jx.str token),
        ("expiresIn", Jx.str expiresIn)])]
  | .profileMongo u =>
    Jx.obj [("success", Jx.jbool true), ("data", mUserToJSON u)]
  | .profileSqlite u =>
    Jx.obj [("success", Jx.jbool true), ("data", sUserNoPassJx u)]
  | .updateProfileMongo u =>
    Jx.obj [("success", Jx.jbool true),
      ("message", Jx.str "Profile updated successfully."),
      ("data", mUserObjectNoPassJx u)]
  | .updateProfileSqlite u =>
    Jx.obj [("success", Jx.jbool true),
      ("message", Jx.str "Profile updated successfully."),
      ("data", sUserNoPassJx u)]
  | .logout =>
    Jx.obj [("success", Jx.jbool true),
      ("message", Jx.str
        "Logged out successfully. Please remove the token from client storage.")]
  | .createTodoMongo t =>
    Jx.obj [("success", Jx.jbool true),
      ("message", Jx.str "Todo created successfully."), ("data", mTodoJx t)]
  | .createTodoSqlite t =>
    Jx.obj [("success", Jx.jbool true),
      ("message", Jx.str "Todo created successfully."),
      ("data", sTodoCreatedJx t)]
  | .todosListMongo ts page limit total pages =>
    Jx.obj [("success", Jx.jbool true), ("data", Jx.arr (ts.map mTodoJx)),
      ("pagination", Jx.obj [("page", Jx.num page), ("limit", Jx.num limit),
        ("total", Jx.num total), ("pages", Jx.num pages)])]
  | .todosListSqlite ts page limit total pages =>
    Jx.obj [("success", Jx.jbool true), ("data", Jx.arr (ts.map sTodoRowJx)),
      ("pagination", Jx.obj [("page", Jx.num page), ("limit", Jx.num limit),
        ("total", Jx.num total), ("pages", Jx.num pages)])]
  | .todoMongo t =>
    Jx.obj [("success", Jx.jbool true), ("data", mTodoJx t)]
  | .todoSqlite t =>
    Jx.obj [("success", Jx.jbool true), ("data", sTodoRowJx t)]
  | .putTodoMongo t =>
    Jx.obj [("success", Jx.jbool true),
      ("message", Jx.str "Todo updated successfully."), ("data", mTodoJx t)]
  | .putTodoSqlite t =>
    Jx.obj [("success", Jx.jbool true),
      ("message", Jx.str "Todo updated successfully."),
      ("data", sTodoRowJx t)]
  | .deleteTodo =>
    Jx.obj [("success", Jx.jbool true),
      ("message", Jx.str "Todo deleted successfully.")]
  | .stats total completed pending hi mid lo =>
    Jx.obj [("success", Jx.jbool true),
      ("data", Jx.obj [("total", Jx.num total),
        ("completed", Jx.num completed), ("pending", Jx.num pending),
        ("highPriority", Jx.num hi), ("mediumPriority", Jx.num mid),
        ("lowPriority", Jx.num lo)])]
  | .adminUsersMongo us =>
    Jx.obj [("success", Jx.jbool true), ("count", Jx.num us.length),
      ("data", Jx.arr (us.map mUserAdminJx))]
  | .adminUsersSqlite us =>
    Jx.obj [("success", Jx.jbool true), ("count", Jx.num us.length),
      ("data", Jx.arr (us.map sUserNoPassJx))]
  | .adminTodosMongo ts =>
    Jx.obj [("success", Jx.jbool true), ("count", Jx.num ts.length),
      ("data", Jx.arr (ts.map fun p => mTodoAdminJx p.1 p.2.1 p.2.2))]
  | .adminTodosSqlite ts =>
    Jx.obj [("success", Jx.jbool true), ("count", Jx.num ts.length),
      ("data", Jx.arr (ts.map fun p => sTodoAdminJx p.1 p.2.1 p.2.2))]

/-- A Day 6 mongoose todo document (server.js `todoSchema`, lines 659-688):
the `user` reference is optional. -/
structure M6Todo where
  oid : String
  task : String
  completed : Bool
  priority : String
  user : Option String
  createdAt : Nat
  updatedAt : Nat
  v : Nat
deriving Repr, DecidableEq

/-- Day 5/6 `userSchema.methods.toJSON` (server.js:650-654): the plain
object minus `password` (unlike Day 7, `__v` is kept). -/
def m6UserToJSON (u : M6User) : Jx :=
  Jx.obj ([("_id", Jx.str u.oid), ("name", Jx.str u.name),
    ("email", Jx.str u.email), ("role", Jx.str u.role),
    ("createdAt", Jx.num u.createdAt)]
    ++ optField "lastLogin" (u.lastLogin.map fun n => Jx.num n)
    ++ [("__v", Jx.num u.v)])

/-- The explicit user object of the Day 5 register response, MongoDB branch
(server.js:998-1003): id, name, email, role. -/
def m6UserRegisterJx (u : M6User) : Jx :=
  Jx.obj [("id", Jx.str u.oid), ("name", Jx.str u.name),
    ("email", Jx.str u.email), ("role", Jx.str u.role)]

/-- The explicit user object of the Day 5 login response, MongoDB branch
(server.js:1095-1101): id, name, email, role, lastLogin. -/
def m6UserLoginJx (u : M6User) : Jx :=
  Jx.obj ([("id", Jx.str u.oid), ("name", Jx.str u.name),
    ("email", Jx.str u.email), ("role", Jx.str u.role)]
    ++ optField "lastLogin" (u.lastLogin.map fun n => Jx.num n))

/-- A Day 5 in-memory user with the password destructured away
(server.js:1033, 1126, 1191). -/
def memUserNoPassJx (u : MemUser) : Jx :=
  Jx.obj [("id", Jx.num u.id), ("name", Jx.str u.name),
    ("email", Jx.str u.email), ("role", Jx.str u.role),
    ("createdAt", Jx.num u.createdAt), ("lastLogin", Jx.num u.lastLogin)]

/-- The `{id, name, email}` requester summary of the Day 6 todo responses
(server.js:1376-1380, 1402-1406, 1551-1555). -/
def m6UserSummaryJx (u : M6User) : Jx :=
  Jx.obj [("id", Jx.str u.oid), ("name", Jx.str u.name),
    ("email", Jx.str u.email)]

/-- The requester summary for the memory branch. -/
def memUserSummaryJx (u : MemUser) : Jx :=
  Jx.obj [("id", Jx.num u.id), ("name", Jx.str u.name),
    ("email", Jx.str u.email)]

/-- A Day 6 mongoose todo serialized by `res.json`. -/
def m6TodoJx (t : M6Todo) : Jx :=
  Jx.obj ([("_id", Jx.str t.oid), ("task", Jx.str t.task),
    ("completed", Jx.jbool t.completed), ("priority", Jx.str t.priority)]
    ++ optField "user" (t.user.map Jx.str)
    ++ [("createdAt", Jx.num t.createdAt), ("updatedAt", Jx.num t.updatedAt),
      ("__v", Jx.num t.v)])

/-- A Day 6 in-memory todo serialized by `res.json`: the seed todos carry a
null `userId` and no timestamps, later ones all fields. -/
def d6TodoJx (t : D6Todo) : Jx :=
  Jx.obj ([("id", Jx.num t.id), ("task", Jx.str t.task),
    ("completed", Jx.jbool t.completed), ("priority", Jx.str t.priority),
    ("userId", match t.userId with
      | some n => Jx.num n
      | none => Jx.null)]
    ++ optField "createdAt" (t.createdAt.map fun n => Jx.num n)
    ++ optField "updatedAt" (t.updatedAt.map fun n => Jx.num n))

/-- Every JSON response of the Day 4-6 server (second document of
server.js) that serializes user records, plus its todo responses; one
constructor per `res.json` site, parameterized by the data serialized
there.  `err` covers every `{success: false, error}` site. -/
inductive Day56Resp where
  | err (status : Nat) (msg : String)
  | usersList (us : List M6User)
  | registerMongo5 (u : M6User) (token expiresIn : String)
  | registerMem5 (u : MemUser) (token expiresIn : String)
  | loginMongo5 (u : M6User) (token expiresIn : String)
  | loginMem5 (u : MemUser) (token expiresIn : String)
  | profileMongo5 (u : M6User)
  | profileMem5 (u : MemUser)
  | logout5
  | createTodoMongo6 (u : M6User) (t : M6Todo)
  | createTodoMem6 (u : MemUser) (t : D6Todo)
  | myTodosMongo6 (u : M6User) (ts : List M6Todo)
  | myTodosMem6 (u : MemUser) (ts : List D6Todo)
  | todosListMongo6 (ts : List M6Todo)
  | todosListMem6 (ts : List D6Todo)
  | todoMongo6 (t : M6Todo)
  | todoMem6 (t : D6Todo)
  | putTodoMongo6 (t : M6Todo)
  | putTodoMem6 (t : D6Todo)
  | deleteTodoMongo6 (t : M6Todo)
  | deleteTodoMem6 (t : D6Todo)

/-- JSON body of each Day 4-6 response, field for field as the handlers
build it. -/
def day56Body : Day56Resp → Jx
  | .err _ msg => Jx.obj [("success", Jx.jbool false), ("error", Jx.str msg)]
  | .usersList us =>
    Jx.obj [("success", Jx.jbool true), ("count", Jx.num us.length),
      ("users", Jx.arr (us.map m6UserToJSON))]
  | .registerMongo5 u token expiresIn =>
    Jx.obj [("success", Jx.jbool true),
      ("message", Jx.str "User registered successfully (MongoDB)"),
      ("data", Jx.obj [("user", m6UserRegisterJx u), ("token", Jx.str token),
        ("expiresIn", Jx.str expiresIn)])]
  | .registerMem5 u token expiresIn =>
    Jx.obj [("success", Jx.jbool true),
      ("message", Jx.str "User registered successfully (in-memory storage)"),
      ("data", Jx.obj [("user", memUserNoPassJx u), ("token", Jx.str token),
        ("expiresIn", Jx.str expiresIn)])]
  | .loginMongo5 u token expiresIn =>
    Jx.obj [("success", Jx.jbool true),
      ("message", Jx.str "Login successful (MongoDB)"),
      ("data", Jx.obj [("user", m6UserLoginJx u), ("token", Jx.str token),
        ("expiresIn", Jx.str expiresIn)])]
  | .loginMem5 u token expiresIn =>
    Jx.obj [("success", Jx.jbool true),
      ("message", Jx.str "Login successful (in-memory)"),
      ("data", Jx.obj [("user", memUserNoPassJx u), ("token", Jx.str token),
        ("expiresIn", Jx.str expiresIn)])]
  | .profileMongo5 u =>
    Jx.obj [("success", Jx.jbool true), ("data", m6UserToJSON u)]
  | .profileMem5 u =>
    Jx.obj [("success", Jx.jbool true), ("data", memUserNoPassJx u)]
  | .logout5 =>
    Jx.obj [("success", Jx.jbool true),
      ("message", Jx.str
        "Logged out successfully. Delete token on client side.")]
  | .createTodoMongo6 u t =>
    Jx.obj [("success", Jx.jbool true),
      ("message", Jx.str "Todo created successfully"),
      ("source", Jx.str "mongodb"), ("user", m6UserSummaryJx u),
      ("data", m6TodoJx t)]
  | .createTodoMem6 u t =>
    Jx.obj [("success", Jx.jbool true),
      ("message", Jx.str "Todo created (in memory)"),
      ("source", Jx.str "memory"), ("user", memUserSummaryJx u),
      ("data", d6TodoJx t)]
  | .myTodosMongo6 u ts =>
    Jx.obj [("success", Jx.jbool true), ("source", Jx.str "mongodb"),
      ("count", Jx.num ts.length), ("user", m6UserSummaryJx u),
      ("data", Jx.arr (ts.map m6TodoJx))]
  | .myTodosMem6 u ts =>
    Jx.obj [("success", Jx.jbool true), ("source", Jx.str "memory"),
      ("count", Jx.num ts.length), ("user", memUserSummaryJx u),
      ("data", Jx.arr (ts.map d6TodoJx))]
  | .todosListMongo6 ts =>
    Jx.obj [("success", Jx.jbool true), ("source", Jx.str "mongodb"),
      ("count", Jx.num ts.length), ("data", Jx.arr (ts.map m6TodoJx))]
  | .todosListMem6 ts =>
    Jx.obj [("success", Jx.jbool true), ("source", Jx.str "memory"),
      ("count", Jx.num ts.length), ("data", Jx.arr (ts.map d6TodoJx))]
  | .todoMongo6 t =>
    Jx.obj [("success", Jx.jbool true), ("source", Jx.str "mongodb"),
      ("data", m6TodoJx t)]
  | .todoMem6 t =>
    Jx.obj [("success", Jx.jbool true), ("source", Jx.str "memory"),
      ("data", d6TodoJx t)]
  | .putTodoMongo6 t =>
    Jx.obj [("success", Jx.jbool true), ("message", Jx.str "Todo updated"),
      ("source", Jx.str "mongodb"), ("data", m6TodoJx t)]
  | .putTodoMem6 t =>
    Jx.obj [("success", Jx.jbool true),
      ("message", Jx.str "Todo updated (in memory)"),
      ("source", Jx.str "memory"), ("data", d6TodoJx t)]
  | .deleteTodoMongo6 t =>
    Jx.obj [("success", Jx.jbool true), ("message", Jx.str "Todo deleted"),
      ("source", Jx.str "mongodb"), ("data", m6TodoJx t)]
  | .deleteTodoMem6 t =>
    Jx.obj [("success", Jx.jbool true),
      ("message", Jx.str "Todo deleted (from memory)"),
      ("source", Jx.str "memory"), ("data", d6TodoJx t)]

/-- GET /api/health of the Day 3-6 servers (server.js:105-111 and 724-730):
`{status, database, uptime}` - with no `success` field and no envelope. -/
def day4HealthBody (connected : Bool) (uptime : Nat) : Jx :=
  Jx.obj [("status", Jx.str "online"),
    ("database", Jx.str (if connected then "connected" else "disconnected")),
    ("uptime", Jx.num uptime)]

/-- Does the top-level object carry a boolean field `k`? -/
def isBoolField (j : Jx) (k : String) : Bool :=
  match j.getField k with
  | some (Jx.jbool _) => true
  | _ => false

/-- Does the top-level object carry a field `k` at all? -/
def hasField (j : Jx) (k : String) : Bool :=
  (j.getField k).isSome

/-- Is the top-level `success` field the boolean false? -/
def successIsFalse (j : Jx) : Bool :=
  match j.getField "success" with
  | some (Jx.jbool false) => true
  | _ => false

/-- Is the top-level `success` field the boolean true? -/
def successIsTrue (j : Jx) : Bool :=
  match j.getField "success" with
  | some (Jx.jbool true) => true
  | _ => false


-- ======================================================================
-- THEOREMS
-- ======================================================================

-- C1: the auth middleware

/-- C1, counterexample: in the Day 7 server with the Mongo backend active
(readyState 1), a request whose bearer token verifies but decodes to the user
id "3" - an id that resolves to no existing user, since it is not even a
well-formed ObjectId - is answered with status 500 by the error-handling
middleware (the CastError is passed to next), not with the claimed 401. -/
theorem c1_counterexample :
    day7Protect 1 true [] [] (some "Bearer tok") (fixedVerify "3")
        = ProtectOut.respond 500 "CastError"
      ∧ (500 : Nat) ≠ 401 := by
  constructor
  · decide
  · decide

/-- C1 (amended): behavior of the auth middleware on protected routes.
Day 7 `protect` (part_001:739-808): a missing or empty bearer token, an
unverifiable or expired token, an unknown user id, or a deactivated user all
answer 401 without running the route handler, and a verified token whose user
exists (and is active) proceeds with the user attached as `req.user` - with
two exceptions: when the Mongo backend is active and the verified id is not a
well-formed ObjectId the lookup raises and the error middleware answers 500,
and when no backend is available the middleware answers 500.  Day 6 `protect`
(server.js:1227-1280) answers 401 in every failure case (its catch-all turns
even a CastError into 401) and otherwise attaches the user and proceeds. -/
theorem c1_protect_amended :
    (∀ rs sq mU sU auth verify, bearerToken7 auth = none →
        day7Protect rs sq mU sU auth verify
          = ProtectOut.respond 401 "Not authorized. Please provide a token.") ∧
    (∀ rs sq mU sU auth verify, bearerToken7 auth = some "" →
        day7Protect rs sq mU sU auth verify
          = ProtectOut.respond 401 "Not authorized. Please provide a token.") ∧
    (∀ rs sq mU sU auth verify t, bearerToken7 auth = some t → t ≠ "" →
        verify t = JwtOut.badToken →
        day7Protect rs sq mU sU auth verify
          = ProtectOut.respond 401 "Invalid token.") ∧
    (∀ rs sq mU sU auth verify t, bearerToken7 auth = some t → t ≠ "" →
        verify t = JwtOut.expired →
        day7Protect rs sq mU sU auth verify
          = ProtectOut.respond 401 "Token expired. Please login again.") ∧
    (∀ sq mU sU auth verify t id, bearerToken7 auth = some t → t ≠ "" →
        verify t = JwtOut.ok id → isValidObjectId id = false →
        day7Protect 1 sq mU sU auth verify
          = ProtectOut.respond 500 "CastError") ∧
    (∀ sq mU sU auth verify t id, bearerToken7 auth = some t → t ≠ "" →
        verify t = JwtOut.ok id → isValidObjectId id = true →
        mU.find? (fun u => u.oid == id) = none →
        day7Protect 1 sq mU sU auth verify
          = ProtectOut.respond 401 "User not found or token is invalid.") ∧
    (∀ sq mU sU auth verify t id u, bearerToken7 auth = some t → t ≠ "" →
        verify t = JwtOut.ok id → isValidObjectId id = true →
        mU.find? (fun u => u.oid == id) = some u → u.isActive = true →
        day7Protect 1 sq mU sU auth verify
          = ProtectOut.proceed (DbUser.mongo u)) ∧
    (∀ sq mU sU auth verify t id u, bearerToken7 auth = some t → t ≠ "" →
        verify t = JwtOut.ok id → isValidObjectId id = true →
        mU.find? (fun u => u.oid == id) = some u → u.isActive = false →
        day7Protect 1 sq mU sU auth verify
          = ProtectOut.respond 401 "User account is deactivated.") ∧
    (∀ rs mU sU auth verify t id, rs ≠ 1 → bearerToken7 auth = some t → t ≠ "" →
        verify t = JwtOut.ok id → sqliteFindUserById sU id = none →
        day7Protect rs true mU sU auth verify
          = ProtectOut.respond 401 "User not found or token is invalid.") ∧
    (∀ rs mU sU auth verify t id u, rs ≠ 1 → bearerToken7 auth = some t → t ≠ "" →
        verify t = JwtOut.ok id → sqliteFindUserById sU id = some u →
        day7Protect rs true mU sU auth verify
          = ProtectOut.proceed (DbUser.sqlite u)) ∧
    (∀ rs mU sU auth verify t id, rs ≠ 1 → bearerToken7 auth = some t → t ≠ "" →
        verify t = JwtOut.ok id →
        day7Protect rs false mU sU auth verify
          = ProtectOut.respond 500 "Database not available.") ∧
    (∀ rs mU memU auth verify, bearerToken6 auth = none →
        day6Protect rs mU memU auth verify
          = ProtectOut.respond 401 "Not authorized, no token provided") ∧
    (∀ rs mU memU auth verify t, bearerToken6 auth = some t → t ≠ "" →
        verify t = JwtOut.badToken →
        day6Protect rs mU memU auth verify
          = ProtectOut.respond 401 "Invalid token") ∧
    (∀ rs mU memU auth verify t, bearerToken6 auth = some t → t ≠ "" →
        verify t = JwtOut.expired →
        day6Protect rs mU memU auth verify
          = ProtectOut.respond 401 "Token expired") ∧
    (∀ mU memU auth verify t id, bearerToken6 auth = some t → t ≠ "" →
        verify t = JwtOut.ok id → isValidObjectId id = false →
        day6Protect 1 mU memU auth verify
          = ProtectOut.respond 401 "Not authorized") ∧
    (∀ mU memU auth verify t id, bearerToken6 auth = some t → t ≠ "" →
        verify t = JwtOut.ok id → isValidObjectId id = true →
        mU.find? (fun u => u.oid == id) = none →
        day6Protect 1 mU memU auth verify
          = ProtectOut.respond 401 "User not found or token invalid") ∧
    (∀ mU memU auth verify t id u, bearerToken6 auth = some t → t ≠ "" →
        verify t = JwtOut.ok id → isValidObjectId id = true →
        mU.find? (fun u => u.oid == id) = some u →
        day6Protect 1 mU memU auth verify
          = ProtectOut.proceed (DbUser6.mongo u)) ∧
    (∀ rs mU memU auth verify t id, rs ≠ 1 → bearerToken6 auth = some t → t ≠ "" →
        verify t = JwtOut.ok id →
        memU.find? (fun u => toString u.id == id) = none →
        day6Protect rs mU memU auth verify
          = ProtectOut.respond 401 "User not found or token invalid") ∧
    (∀ rs mU memU auth verify t id u, rs ≠ 1 → bearerToken6 auth = some t → t ≠ "" →
        verify t = JwtOut.ok id →
        memU.find? (fun u => toString u.id == id) = some u →
        day6Protect rs mU memU auth verify
          = ProtectOut.proceed (DbUser6.mem u)) := by
  refine ⟨?_, ?_, ?_, ?_, ?_, ?_, ?_, ?_, ?_, ?_, ?_, ?_, ?_, ?_, ?_, ?_, ?_, ?_, ?_⟩
  · intro rs sq mU sU auth verify h
    simp [day7Protect, h]
  · intro rs sq mU sU auth verify h
    simp [day7Protect, h]
  · intro rs sq mU sU auth verify t h ht hv
    simp [day7Protect, h, ht, hv]
  · intro rs sq mU sU auth verify t h ht hv
    simp [day7Protect, h, ht, hv]
  · intro sq mU sU auth verify t id h ht hv hoid
    simp [day7Protect, h, ht, hv, canUseDB7, mongoFindById, hoid]
  · intro sq mU sU auth verify t id h ht hv hoid hf
    simp [day7Protect, h, ht, hv, canUseDB7, mongoFindById, hoid, hf]
  · intro sq mU sU auth verify t id u h ht hv hoid hf hu
    simp [day7Protect, h, ht, hv, canUseDB7, mongoFindById, hoid, hf, hu]
  · intro sq mU sU auth verify t id u h ht hv hoid hf hu
    simp [day7Protect, h, ht, hv, canUseDB7, mongoFindById, hoid, hf, hu]
  · intro rs mU sU auth verify t id hrs h ht hv hf
    simp [day7Protect, h, ht, hv, canUseDB7, hrs, hf]
  · intro rs mU sU auth verify t id u hrs h ht hv hf
    have hact : u.isActive = true := by
      revert hf
      unfold sqliteFindUserById
      cases hpn : parseNat? id with
      | none => intro hf; cases hf
      | some n =>
        intro hf
        have := List.find?_some hf
        exact (Bool.and_eq_true _ _).mp this |>.2
    simp [day7Protect, h, ht, hv, canUseDB7, hrs, hf, hact]
  · intro rs mU sU auth verify t id hrs h ht hv
    simp [day7Protect, h, ht, hv, canUseDB7, hrs]
  · intro rs mU memU auth verify h
    simp [day6Protect, h]
  · intro rs mU memU auth verify t h ht hv
    simp [day6Protect, h, ht, hv]
  · intro rs mU memU auth verify t h ht hv
    simp [day6Protect, h, ht, hv]
  · intro mU memU auth verify t id h ht hv hoid
    simp [day6Protect, h, ht, hv, canUseDB6, mongoFindById, hoid]
  · intro mU memU auth verify t id h ht hv hoid hf
    simp [day6Protect, h, ht, hv, canUseDB6, mongoFindById, hoid, hf]
  · intro mU memU auth verify t id u h ht hv hoid hf
    simp [day6Protect, h, ht, hv, canUseDB6, mongoFindById, hoid, hf]
  · intro rs mU memU auth verify t id hrs h ht hv hf
    simp [day6Protect, h, ht, hv, canUseDB6, hrs, hf]
  · intro rs mU memU auth verify t id u hrs h ht hv hf
    simp [day6Protect, h, ht, hv, canUseDB6, hrs, hf]

/-- Witness for C1's amended theorem: a concrete verified token attaching a
concrete active Mongo user, obtained by applying the theorem itself. -/
theorem c1_protect_amended_witness :
    day7Protect 1 true [mUserEx] [] (some "Bearer tok")
        (fixedVerify "aaaaaaaaaaaaaaaaaaaaaaaa")
      = ProtectOut.proceed (DbUser.mongo mUserEx) :=
  c1_protect_amended.2.2.2.2.2.2.1 true [mUserEx] [] (some "Bearer tok")
    (fixedVerify "aaaaaaaaaaaaaaaaaaaaaaaa") "tok" "aaaaaaaaaaaaaaaaaaaaaaaa"
    mUserEx (by decide) (by decide) rfl (by decide) (by decide) rfl

-- ======================================================================
-- Helper lemmas: which part of the state each operation touches
-- ======================================================================

theorem pairwise_ne_append_singleton {α : Type} {key : α → String} {l : List α}
    {x : α} (h : l.Pairwise (fun a b => key a ≠ key b))
    (hx : ∀ a ∈ l, key a ≠ key x) :
    (l ++ [x]).Pairwise (fun a b => key a ≠ key b) := by
  rw [List.pairwise_append]
  refine ⟨h, List.pairwise_singleton _ _, ?_⟩
  intro a ha b hb
  rw [List.mem_singleton] at hb
  subst hb
  exact hx a ha

theorem pairwise_ne_map {α : Type} {key : α → String} {l : List α} {g : α → α}
    (hg : ∀ a, key (g a) = key a) (h : l.Pairwise (fun a b => key a ≠ key b)) :
    (l.map g).Pairwise (fun a b => key a ≠ key b) := by
  rw [List.pairwise_map]
  exact h.imp fun hab => by rwa [hg, hg]

theorem day5RegisterMem_effect (s : MemState) (i : RegInput)
    (hash : String → String) (now : Nat) :
    (day5RegisterMem s i hash now).2.users = s.users ∨
      ∃ u, (day5RegisterMem s i hash now).2.users = s.users ++ [u] ∧
        ∀ a ∈ s.users, a.email ≠ u.email := by
  unfold day5RegisterMem
  cases hval : regValidationError5 i with
  | some m => exact Or.inl rfl
  | none =>
    by_cases hany : s.users.any (fun u => u.email == i.email) = true
    · rw [if_pos hany]
      exact Or.inl rfl
    · rw [if_neg hany]
      refine Or.inr ⟨_, rfl, ?_⟩
      intro a ha hc
      exact hany (by simp only [List.any_eq_true]
                     exact ⟨a, ha, by simp [hc]⟩)

theorem day7Register_mongo_effect (ms : MongoState) (ss : SqliteState)
    (i : RegInput) (hash : String → String) (oid : String) (now : Nat) :
    (day7Register .mongodb ms ss i hash oid now).2.1.todos = ms.todos ∧
      ((day7Register .mongodb ms ss i hash oid now).2.1.users = ms.users ∨
        ∃ u, (day7Register .mongodb ms ss i hash oid now).2.1.users
            = ms.users ++ [u] ∧ ∀ a ∈ ms.users, a.email ≠ u.email) := by
  unfold day7Register
  cases hval : regValidationError7 i with
  | some m => exact ⟨rfl, Or.inl rfl⟩
  | none =>
    by_cases hany : ms.users.any (fun u => u.email == i.email) = true
    · rw [if_pos hany]
      exact ⟨rfl, Or.inl rfl⟩
    · rw [if_neg hany]
      refine ⟨rfl, Or.inr ⟨_, rfl, ?_⟩⟩
      intro a ha hc
      exact hany (by simp only [List.any_eq_true]
                     exact ⟨a, ha, by simp [hc]⟩)

theorem day7Register_sqlite_effect (ms : MongoState) (ss : SqliteState)
    (i : RegInput) (hash : String → String) (oid : String) (now : Nat) :
    (day7Register .sqlite ms ss i hash oid now).2.2.todos = ss.todos ∧
      ((day7Register .sqlite ms ss i hash oid now).2.2.users = ss.users ∨
        ∃ u, (day7Register .sqlite ms ss i hash oid now).2.2.users
            = ss.users ++ [u] ∧ ∀ a ∈ ss.users, a.email ≠ u.email) := by
  unfold day7Register
  cases hval : regValidationError7 i with
  | some m => exact ⟨rfl, Or.inl rfl⟩
  | none =>
    cases hfind : sqliteFindUserByEmail ss.users i.email with
    | some u => exact ⟨rfl, Or.inl rfl⟩
    | none =>
      unfold sqliteCreateUser
      by_cases hany : ss.users.any (fun u => u.email == i.email) = true
      · rw [if_pos hany]
        exact ⟨rfl, Or.inl rfl⟩
      · rw [if_neg hany]
        refine ⟨rfl, Or.inr ⟨_, rfl, ?_⟩⟩
        intro a ha hc
        exact hany (by simp only [List.any_eq_true]
                       exact ⟨a, ha, by simp [hc]⟩)

theorem sqliteUpdateTodo_effect (s : SqliteState) (id uid : Nat)
    (upd : TodoUpdates) (now : Nat) :
    (sqliteUpdateTodo s id uid upd now).2.users = s.users ∧
      ∀ t2 ∈ (sqliteUpdateTodo s id uid upd now).2.todos,
        ∃ t1 ∈ s.todos, t2.userId = t1.userId := by
  unfold sqliteUpdateTodo
  split
  · refine ⟨rfl, ?_⟩
    intro t2 ht2
    simp only [List.mem_map] at ht2
    obtain ⟨t1, ht1, heq⟩ := ht2
    refine ⟨t1, ht1, ?_⟩
    subst heq
    split
    · rfl
    · rfl
  · exact ⟨rfl, fun t2 ht2 => ⟨t2, ht2, rfl⟩⟩

theorem day7PutTodoSqlite_effect (s : SqliteState) (id uid : Nat)
    (b : PutTodoBody) (now : Nat) :
    (day7PutTodoSqlite s id uid b now).2.users = s.users ∧
      ∀ t2 ∈ (day7PutTodoSqlite s id uid b now).2.todos,
        ∃ t1 ∈ s.todos, t2.userId = t1.userId := by
  unfold day7PutTodoSqlite
  split
  · exact ⟨rfl, fun t2 ht2 => ⟨t2, ht2, rfl⟩⟩
  · exact sqliteUpdateTodo_effect s id uid (day7PutUpdates b) now

theorem sqliteDeleteTodo_effect (s : SqliteState) (id uid : Nat) :
    (sqliteDeleteTodo s id uid).2.users = s.users ∧
      ∀ t2 ∈ (sqliteDeleteTodo s id uid).2.todos, t2 ∈ s.todos := by
  refine ⟨rfl, ?_⟩
  intro t2 ht2
  exact List.mem_of_mem_filter ht2

theorem day7CreateTodoSqlite_effect (s : SqliteState) (b : CreateTodoBody)
    (uid : Nat) (now : Nat) :
    (day7CreateTodoSqlite s b uid now).2.users = s.users ∧
      ((day7CreateTodoSqlite s b uid now).2.todos = s.todos ∨
        ∃ t, (day7CreateTodoSqlite s b uid now).2.todos = s.todos ++ [t] ∧
          t.userId = uid) := by
  unfold day7CreateTodoSqlite
  split
  · exact ⟨rfl, Or.inl rfl⟩
  · exact ⟨rfl, Or.inr ⟨_, rfl, rfl⟩⟩

theorem mongoUpdateTodo_effect (s : MongoState) (id uid : String)
    (upd : TodoUpdates) (now : Nat) :
    (mongoUpdateTodo s id uid upd now).2.users = s.users ∧
      ∀ t2 ∈ (mongoUpdateTodo s id uid upd now).2.todos,
        ∃ t1 ∈ s.todos, t2.user = t1.user := by
  unfold mongoUpdateTodo
  split
  · refine ⟨rfl, ?_⟩
    intro t2 ht2
    simp only [List.mem_map] at ht2
    obtain ⟨t1, ht1, heq⟩ := ht2
    refine ⟨t1, ht1, ?_⟩
    subst heq
    split
    · rfl
    · rfl
  · exact ⟨rfl, fun t2 ht2 => ⟨t2, ht2, rfl⟩⟩

theorem day7PutTodoMongo_effect (s : MongoState) (id uid : String)
    (b : PutTodoBody) (now : Nat) :
    (day7PutTodoMongo s id uid b now).2.users = s.users ∧
      ∀ t2 ∈ (day7PutTodoMongo s id uid b now).2.todos,
        ∃ t1 ∈ s.todos, t2.user = t1.user := by
  unfold day7PutTodoMongo
  split
  · exact ⟨rfl, fun t2 ht2 => ⟨t2, ht2, rfl⟩⟩
  · exact mongoUpdateTodo_effect s id uid (day7PutUpdatesMongo b) now

theorem mongoDeleteTodo_effect (s : MongoState) (id uid : String) :
    (mongoDeleteTodo s id uid).2.users = s.users ∧
      ∀ t2 ∈ (mongoDeleteTodo s id uid).2.todos, t2 ∈ s.todos := by
  refine ⟨rfl, ?_⟩
  intro t2 ht2
  exact List.mem_of_mem_filter ht2

theorem day7CreateTodoMongo_effect (s : MongoState) (b : CreateTodoBody)
    (uid : String) (oid : String) (now : Nat) :
    (day7CreateTodoMongo s b uid oid now).2.users = s.users ∧
      ((day7CreateTodoMongo s b uid oid now).2.todos = s.todos ∨
        ∃ t, (day7CreateTodoMongo s b uid oid now).2.todos = s.todos ++ [t] ∧
          t.user = uid) := by
  unfold day7CreateTodoMongo
  split
  · exact ⟨rfl, Or.inl rfl⟩
  · exact ⟨rfl, Or.inr ⟨_, rfl, rfl⟩⟩

theorem memReach_emails {s : MemState} (h : MemReach s) :
    s.users.Pairwise (fun a b => a.email ≠ b.email) := by
  induction h with
  | init => simp [memInit]
  | register s i hash now _ ih =>
    rcases day5RegisterMem_effect s i hash now with heq | ⟨u, heq, hfresh⟩
    · rw [heq]; exact ih
    · rw [heq]
      exact pairwise_ne_append_singleton ih hfresh
  | touchLastLogin s uid now _ ih =>
    exact pairwise_ne_map (fun a => by split <;> rfl) ih

theorem mongoReach_emails {s : MongoState} (h : MongoReach s) :
    s.users.Pairwise (fun a b => a.email ≠ b.email) := by
  induction h with
  | init => simp [mongoInit]
  | register s ss i hash oid now _ ih =>
    rcases (day7Register_mongo_effect s ss i hash oid now).2 with
      heq | ⟨u, heq, hfresh⟩
    · rw [heq]; exact ih
    · rw [heq]; exact pairwise_ne_append_singleton ih hfresh
  | createTodo s b uid oid now _ _ ih =>
    rw [(day7CreateTodoMongo_effect s b uid oid now).1]; exact ih
  | putTodo s id uid b now _ ih =>
    rw [(day7PutTodoMongo_effect s id uid b now).1]; exact ih
  | deleteTodo s id uid _ ih =>
    rw [(mongoDeleteTodo_effect s id uid).1]; exact ih
  | touchLastLogin s uid now _ ih =>
    unfold mongoTouchLastLogin
    exact pairwise_ne_map (fun a => by split <;> rfl) ih
  | rename s uid name _ ih =>
    unfold mongoUpdateUserName
    exact pairwise_ne_map (fun a => by split <;> rfl) ih

theorem sqliteReach_emails {s : SqliteState} (h : SqliteReach s) :
    s.users.Pairwise (fun a b => a.email ≠ b.email) := by
  induction h with
  | init => simp [sqliteInit]
  | register ms s i hash oid now _ ih =>
    rcases (day7Register_sqlite_effect ms s i hash oid now).2 with
      heq | ⟨u, heq, hfresh⟩
    · rw [heq]; exact ih
    · rw [heq]; exact pairwise_ne_append_singleton ih hfresh
  | createTodo s b uid now _ _ ih =>
    rw [(day7CreateTodoSqlite_effect s b uid now).1]; exact ih
  | putTodo s id uid b now _ ih =>
    rw [(day7PutTodoSqlite_effect s id uid b now).1]; exact ih
  | deleteTodo s id uid _ ih =>
    rw [(sqliteDeleteTodo_effect s id uid).1]; exact ih
  | touchLastLogin s uid now _ ih =>
    unfold sqliteTouchLastLogin
    exact pairwise_ne_map (fun a => by split <;> rfl) ih
  | rename s uid name _ ih =>
    unfold sqliteUpdateUserName
    exact pairwise_ne_map (fun a => by split <;> rfl) ih

theorem sqliteReach_owned {s : SqliteState} (h : SqliteReach s) :
    ∀ t ∈ s.todos, ∃ u ∈ s.users, u.id = t.userId := by
  induction h with
  | init =>
    intro t ht
    simp [sqliteInit] at ht
  | register ms s i hash oid now _ ih =>
    obtain ⟨htodos, husers⟩ := day7Register_sqlite_effect ms s i hash oid now
    intro t ht
    rw [htodos] at ht
    obtain ⟨u, hu, hid⟩ := ih t ht
    rcases husers with heq | ⟨w, heq, _⟩
    · rw [heq]; exact ⟨u, hu, hid⟩
    · rw [heq]; exact ⟨u, List.mem_append_left _ hu, hid⟩
  | createTodo s b uid now _ hex ih =>
    obtain ⟨husers, htodos⟩ := day7CreateTodoSqlite_effect s b uid now
    intro t ht
    rw [husers]
    rcases htodos with heq | ⟨t0, heq, howner⟩
    · rw [heq] at ht; exact ih t ht
    · rw [heq] at ht
      rcases List.mem_append.mp ht with hin | hin
      · exact ih t hin
      · rw [List.mem_singleton] at hin
        subst hin
        obtain ⟨u, hu, hid⟩ := hex
        exact ⟨u, hu, by rw [hid, howner]⟩
  | putTodo s id uid b now _ ih =>
    obtain ⟨husers, htodos⟩ := day7PutTodoSqlite_effect s id uid b now
    intro t ht
    obtain ⟨t1, ht1, hsame⟩ := htodos t ht
    obtain ⟨u, hu, hid⟩ := ih t1 ht1
    rw [husers]
    exact ⟨u, hu, by rw [hid, hsame]⟩
  | deleteTodo s id uid _ ih =>
    obtain ⟨husers, htodos⟩ := sqliteDeleteTodo_effect s id uid
    intro t ht
    rw [husers]
    exact ih t (htodos t ht)
  | touchLastLogin s uid now _ ih =>
    intro t ht
    obtain ⟨u, hu, hid⟩ := ih t ht
    refine ⟨_, List.mem_map_of_mem
      (fun u => if u.id == uid then { u with lastLogin := some now } else u) hu, ?_⟩
    have hkeep :
        (if u.id == uid then { u with lastLogin := some now } else u).id = u.id := by
      split <;> rfl
    rw [hkeep, hid]
  | rename s uid name _ ih =>
    intro t ht
    obtain ⟨u, hu, hid⟩ := ih t ht
    refine ⟨_, List.mem_map_of_mem
      (fun u => if u.id == uid then { u with name := name } else u) hu, ?_⟩
    have hkeep :
        (if u.id == uid then { u with name := name } else u).id = u.id := by
      split <;> rfl
    rw [hkeep, hid]

theorem mongoReach_owned {s : MongoState} (h : MongoReach s) :
    ∀ t ∈ s.todos, ∃ u ∈ s.users, u.oid = t.user := by
  induction h with
  | init =>
    intro t ht
    simp [mongoInit] at ht
  | register s ss i hash oid now _ ih =>
    obtain ⟨htodos, husers⟩ := day7Register_mongo_effect s ss i hash oid now
    intro t ht
    rw [htodos] at ht
    obtain ⟨u, hu, hid⟩ := ih t ht
    rcases husers with heq | ⟨w, heq, _⟩
    · rw [heq]; exact ⟨u, hu, hid⟩
    · rw [heq]; exact ⟨u, List.mem_append_left _ hu, hid⟩
  | createTodo s b uid oid now _ hex ih =>
    obtain ⟨husers, htodos⟩ := day7CreateTodoMongo_effect s b uid oid now
    intro t ht
    rw [husers]
    rcases htodos with heq | ⟨t0, heq, howner⟩
    · rw [heq] at ht; exact ih t ht
    · rw [heq] at ht
      rcases List.mem_append.mp ht with hin | hin
      · exact ih t hin
      · rw [List.mem_singleton] at hin
        subst hin
        obtain ⟨u, hu, hid⟩ := hex
        exact ⟨u, hu, by rw [hid, howner]⟩
  | putTodo s id uid b now _ ih =>
    obtain ⟨husers, htodos⟩ := day7PutTodoMongo_effect s id uid b now
    intro t ht
    obtain ⟨t1, ht1, hsame⟩ := htodos t ht
    obtain ⟨u, hu, hid⟩ := ih t1 ht1
    rw [husers]
    exact ⟨u, hu, by rw [hid, hsame]⟩
  | deleteTodo s id uid _ ih =>
    obtain ⟨husers, htodos⟩ := mongoDeleteTodo_effect s id uid
    intro t ht
    rw [husers]
    exact ih t (htodos t ht)
  | touchLastLogin s uid now _ ih =>
    intro t ht
    obtain ⟨u, hu, hid⟩ := ih t ht
    refine ⟨_, List.mem_map_of_mem
      (fun u => if u.oid == uid then { u with lastLogin := some now } else u) hu, ?_⟩
    have hkeep :
        (if u.oid == uid then { u with lastLogin := some now } else u).oid = u.oid := by
      split <;> rfl
    rw [hkeep, hid]
  | rename s uid name _ ih =>
    intro t ht
    obtain ⟨u, hu, hid⟩ := ih t ht
    refine ⟨_, List.mem_map_of_mem
      (fun u => if u.oid == uid then { u with name := name } else u) hu, ?_⟩
    have hkeep :
        (if u.oid == uid then { u with name := name } else u).oid = u.oid := by
      split <;> rfl
    rw [hkeep, hid]

-- C2: email uniqueness

/-- C2: email is unique across users.  In every reachable state of the Day
5/6 in-memory store, the Day 7 MongoDB store and the Day 7 SQLite store, no
two user records have equal email; and a registration passing field
validation whose email equals an existing user's email answers 409 with the
users unchanged - except that in the SQLite backend a duplicate of an
inactive row slips past the route's active-only check and is rejected by the
UNIQUE constraint instead (the claimed duplicate-key error), again leaving
the store unchanged. -/
theorem c2_email_unique :
    (∀ s, MemReach s → s.users.Pairwise (fun a b => a.email ≠ b.email)) ∧
    (∀ s, MongoReach s → s.users.Pairwise (fun a b => a.email ≠ b.email)) ∧
    (∀ s, SqliteReach s → s.users.Pairwise (fun a b => a.email ≠ b.email)) ∧
    (∀ s i hash now, regValidationError5 i = none →
        (∃ u ∈ s.users, u.email = i.email) →
        day5RegisterMem s i hash now = (RegOut.conflict, s)) ∧
    (∀ ms ss i hash oid now, regValidationError7 i = none →
        (∃ u ∈ ms.users, u.email = i.email) →
        day7Register .mongodb ms ss i hash oid now = (RegOut.conflict, ms, ss)) ∧
    (∀ ms ss i hash oid now, regValidationError7 i = none →
        (∃ u ∈ ss.users, u.email = i.email) →
        (day7Register .sqlite ms ss i hash oid now = (RegOut.conflict, ms, ss) ∨
          day7Register .sqlite ms ss i hash oid now
            = (RegOut.dbError "User with this email already exists.", ms, ss))) := by
  refine ⟨?_, ?_, ?_, ?_, ?_, ?_⟩
  · intro s h; exact memReach_emails h
  · intro s h; exact mongoReach_emails h
  · intro s h; exact sqliteReach_emails h
  · rintro s i hash now hval ⟨u, hu, he⟩
    have hany : s.users.any (fun u => u.email == i.email) = true := by
      simp only [List.any_eq_true]
      exact ⟨u, hu, by simp [he]⟩
    unfold day5RegisterMem
    simp only [hval]
    rw [if_pos hany]
  · rintro ms ss i hash oid now hval ⟨u, hu, he⟩
    have hany : ms.users.any (fun u => u.email == i.email) = true := by
      simp only [List.any_eq_true]
      exact ⟨u, hu, by simp [he]⟩
    unfold day7Register
    simp only [hval]
    rw [if_pos hany]
  · rintro ms ss i hash oid now hval ⟨u, hu, he⟩
    unfold day7Register
    simp only [hval]
    cases hfind : sqliteFindUserByEmail ss.users i.email with
    | some w => exact Or.inl rfl
    | none =>
      refine Or.inr ?_
      unfold sqliteCreateUser
      have hany : ss.users.any (fun x => x.email == i.email) = true := by
        simp only [List.any_eq_true]
        exact ⟨u, hu, by simp [he]⟩
      rw [if_pos hany]

/-- Witness for C2: registering a second user with `memUserEx1`'s email in
the Day 5 in-memory store answers 409 and leaves the store unchanged. -/
theorem c2_email_unique_witness :
    day5RegisterMem { users := [memUserEx1], nextUserId := 2 } regInputEx idHash 5
      = (RegOut.conflict, { users := [memUserEx1], nextUserId := 2 }) :=
  c2_email_unique.2.2.2.1 { users := [memUserEx1], nextUserId := 2 } regInputEx
    idHash 5 (by decide) ⟨memUserEx1, by simp, rfl⟩

-- C3: todo ownership

/-- C3, counterexample: the claim fails on the Day 6 server's in-memory
backend, whose initial todo list (a reachable state: it is the state at
startup, server.js:811-815) already contains three seed todos whose owning
user id is null. -/
theorem c3_counterexample :
    d6MemInit.todos.any (fun t => t.userId == none) = true := by decide

/-- C3 (amended): in the Day 7 server every todo belongs to exactly one
user: in every reachable state of the SQLite and MongoDB backends each todo
carries a (non-null) owning user id that references an existing user, and
every todo-creation operation (Day 7 SQLite, Day 7 MongoDB, and the Day 6
memory handler) sets the owner to the authenticated requester.  The Day 6
seed todos, however, carry a null owner (see the counterexample), and the
Day 6 mongoose schema marks `user` as optional. -/
theorem c3_todo_ownership :
    (∀ s, SqliteReach s → ∀ t ∈ s.todos, ∃ u ∈ s.users, u.id = t.userId) ∧
    (∀ s, MongoReach s → ∀ t ∈ s.todos, ∃ u ∈ s.users, u.oid = t.user) ∧
    (∀ s b uid now r s2,
        day7CreateTodoSqlite s b uid now = (Except.ok r, s2) → r.userId = uid) ∧
    (∀ s b uid oid now r s2,
        day7CreateTodoMongo s b uid oid now = (Except.ok r, s2) → r.user = uid) ∧
    (∀ s task prio uid now r s2,
        day6CreateTodoMem s task prio uid now = (Except.ok r, s2) →
        r.userId = some uid) := by
  refine ⟨?_, ?_, ?_, ?_, ?_⟩
  · intro s h; exact sqliteReach_owned h
  · intro s h; exact mongoReach_owned h
  · intro s b uid now r s2 h
    unfold day7CreateTodoSqlite at h
    split at h
    · simp at h
    · simp only [Prod.mk.injEq, Except.ok.injEq] at h
      rw [← h.1]
      rfl
  · intro s b uid oid now r s2 h
    unfold day7CreateTodoMongo at h
    split at h
    · simp at h
    · simp only [Prod.mk.injEq, Except.ok.injEq] at h
      rw [← h.1]
  · intro s task prio uid now r s2 h
    unfold day6CreateTodoMem at h
    split at h
    · simp at h
    · simp only [Prod.mk.injEq, Except.ok.injEq] at h
      rw [← h.1]

/-- Witness for C3's amended theorem: creating a concrete todo as user 1 in
the empty SQLite store makes user 1 its owner. -/
theorem c3_todo_ownership_witness : sTodoEx.userId = 1 :=
  c3_todo_ownership.2.2.1 sqliteInit createBodyEx 1 0 sTodoEx
    { users := [], nextUserId := 1, todos := [sTodoEx], nextTodoId := 2 }
    (by rfl)

-- C5: partial field replace on todo update

theorem find_in_replaced {α : Type} (cond p : α → Bool) (f : α → α)
    (l : List α) (t : α) (ht : t ∈ l) (hct : cond t = true)
    (hpt : p (f t) = true)
    (hother : ∀ x ∈ l, x ≠ t → p (if cond x then f x else x) = false) :
    (l.map fun x => if cond x then f x else x).find? p = some (f t) := by
  induction l with
  | nil => cases ht
  | cons a l ih =>
    simp only [List.map_cons, List.find?_cons]
    by_cases ha : a = t
    · subst ha
      rw [if_pos hct, hpt]
    · rw [hother a (List.mem_cons_self a l) ha]
      apply ih
      · cases List.mem_cons.mp ht with
        | inl h => exact absurd h.symm ha
        | inr h => exact h
      · intro x hx hxt
        exact hother x (List.mem_cons_of_mem a hx) hxt

theorem mem_map_no_match {α : Type} (cond : α → Bool) (f : α → α)
    (l : List α) (x : α) (hx : x ∈ l) (hc : cond x = false) :
    x ∈ l.map fun y => if cond y then f y else y := by
  have hxx : x = (fun y => if cond y then f y else y) x := by
    simp only [hc]
    simp
  rw [hxx]
  exact List.mem_map_of_mem _ hx

theorem day7PutTodoSqlite_main (s : SqliteState) (id uid : Nat)
    (b : PutTodoBody) (now : Nat) (t : STodo)
    (hval : putTaskInvalid b.task = false) (ht : t ∈ s.todos)
    (hid : t.id = id) (huid : t.userId = uid)
    (huniq : ∀ t2 ∈ s.todos, t2.id = id → t2 = t) :
    day7PutTodoSqlite s id uid b now
      = (PutOut.updated (applyTodoUpdates (day7PutUpdates b) now t),
         { s with todos := s.todos.map fun x =>
            if x.id == id && x.userId == uid then
              applyTodoUpdates (day7PutUpdates b) now x
            else x }) := by
  have hany : s.todos.any (fun x => x.id == id && x.userId == uid) = true := by
    simp only [List.any_eq_true]
    exact ⟨t, ht, by simp [hid, huid]⟩
  have hfind :
      ((s.todos.map fun x => if x.id == id && x.userId == uid then
          applyTodoUpdates (day7PutUpdates b) now x else x).find?
        (fun x => x.id == id))
        = some (applyTodoUpdates (day7PutUpdates b) now t) := by
    apply find_in_replaced _ _ _ _ _ ht
    · simp [hid, huid]
    · have : (applyTodoUpdates (day7PutUpdates b) now t).id = t.id := rfl
      simp [this, hid]
    · intro x hx hxt
      have hxid : x.id ≠ id := fun hc => hxt (huniq x hx hc)
      rw [if_neg (by simp [hxid])]
      simp [hxid]
  unfold day7PutTodoSqlite sqliteUpdateTodo
  rw [if_neg (by simp [hval])]
  dsimp only
  rw [if_pos hany, hfind]

theorem day7PutTodoMongo_main (s : MongoState) (id uid : String)
    (b : PutTodoBody) (now : Nat) (t : MTodo)
    (hval : putTaskInvalid b.task = false) (ht : t ∈ s.todos)
    (hid : t.oid = id) (huid : t.user = uid)
    (huniq : ∀ t2 ∈ s.todos, t2.oid = id → t2 = t) :
    day7PutTodoMongo s id uid b now
      = (PutOut.updated (applyMTodoUpdates (day7PutUpdatesMongo b) now t),
         { s with todos := s.todos.map fun x =>
            if x.oid == id && x.user == uid then
              applyMTodoUpdates (day7PutUpdatesMongo b) now x
            else x }) := by
  have hany : s.todos.any (fun x => x.oid == id && x.user == uid) = true := by
    simp only [List.any_eq_true]
    exact ⟨t, ht, by simp [hid, huid]⟩
  have hfind :
      ((s.todos.map fun x => if x.oid == id && x.user == uid then
          applyMTodoUpdates (day7PutUpdatesMongo b) now x else x).find?
        (fun x => x.oid == id))
        = some (applyMTodoUpdates (day7PutUpdatesMongo b) now t) := by
    apply find_in_replaced _ _ _ _ _ ht
    · simp [hid, huid]
    · have : (applyMTodoUpdates (day7PutUpdatesMongo b) now t).oid = t.oid := rfl
      simp [this, hid]
    · intro x hx hxt
      have hxid : x.oid ≠ id := fun hc => hxt (huniq x hx hc)
      rw [if_neg (by simp [hxid])]
      simp [hxid]
  unfold day7PutTodoMongo mongoUpdateTodo
  rw [if_neg (by simp [hval])]
  dsimp only
  rw [if_pos hany, hfind]

theorem day6PutTodoMem_main (s : D6MemState) (id uid : Nat)
    (task : Option String) (completed : Option Bool) (priority : Option String)
    (now : Nat) (t : D6Todo) (ht : t ∈ s.todos)
    (hid : t.id = id) (huid : t.userId = some uid)
    (huniq : ∀ t2 ∈ s.todos, t2.id = id → t2 = t) :
    day6PutTodoMem s id uid task completed priority now
      = (PutOut.updated
          { t with
            task := match task with | some v => jsTrim v | none => t.task
            completed := completed.getD t.completed
            priority := priority.getD t.priority
            updatedAt := some now },
         { s with todos := s.todos.map fun x =>
            if x.id == id && x.userId == some uid then
              { x with
                task := match task with | some v => jsTrim v | none => x.task
                completed := completed.getD x.completed
                priority := priority.getD x.priority
                updatedAt := some now }
            else x }) := by
  have hany : s.todos.any (fun x => x.id == id && x.userId == some uid) = true := by
    simp only [List.any_eq_true]
    exact ⟨t, ht, by simp [hid, huid]⟩
  have hfind :
      ((s.todos.map fun x => if x.id == id && x.userId == some uid then
          { x with
            task := match task with | some v => jsTrim v | none => x.task
            completed := completed.getD x.completed
            priority := priority.getD x.priority
            updatedAt := some now }
          else x).find? (fun x => x.id == id && x.userId == some uid))
        = some { t with
            task := match task with | some v => jsTrim v | none => t.task
            completed := completed.getD t.completed
            priority := priority.getD t.priority
            updatedAt := some now } := by
    apply find_in_replaced _ _ _ _ _ ht
    · simp [hid, huid]
    · simp only
      simp [hid, huid]
    · intro x hx hxt
      have hxid : x.id ≠ id := fun hc => hxt (huniq x hx hc)
      rw [if_neg (by simp [hxid])]
      simp [hxid]
  unfold day6PutTodoMem
  rw [if_pos hany]
  dsimp only
  rw [hfind]

/-- C5: todo updates are a partial field replace.  For a PUT /api/todos/:id
request by the todo's owner (the todo exists, belongs to the requester, and
ids are unique), in the Day 7 SQLite branch, the Day 7 MongoDB branch
(well-formed id) and the Day 6 memory branch alike: exactly the fields
defined in the request body are replaced (task and description trimmed; the
Mongo branch also trims tags), `updatedAt` is refreshed to the current time,
every other field of the todo keeps its prior value, every other todo is
unchanged, and the user records and counters are untouched. -/
theorem c5_put_partial_replace :
    (∀ s id uid (b : PutTodoBody) now (t : STodo), putTaskInvalid b.task = false →
      t ∈ s.todos → t.id = id → t.userId = uid →
      (∀ t2 ∈ s.todos, t2.id = id → t2 = t) →
      (day7PutTodoSqlite s id uid b now).1
          = PutOut.updated (applyTodoUpdates (day7PutUpdates b) now t) ∧
        (applyTodoUpdates (day7PutUpdates b) now t).id = t.id ∧
        (applyTodoUpdates (day7PutUpdates b) now t).userId = t.userId ∧
        (applyTodoUpdates (day7PutUpdates b) now t).createdAt = t.createdAt ∧
        (applyTodoUpdates (day7PutUpdates b) now t).updatedAt = now ∧
        (b.task = none → (applyTodoUpdates (day7PutUpdates b) now t).task = t.task) ∧
        (∀ v, b.task = some v →
          (applyTodoUpdates (day7PutUpdates b) now t).task = jsTrim v) ∧
        (b.description = none →
          (applyTodoUpdates (day7PutUpdates b) now t).description = t.description) ∧
        (∀ v, b.description = some v →
          (applyTodoUpdates (day7PutUpdates b) now t).description = some (jsTrim v)) ∧
        (b.completed = none →
          (applyTodoUpdates (day7PutUpdates b) now t).completed = t.completed) ∧
        (∀ v, b.completed = some v →
          (applyTodoUpdates (day7PutUpdates b) now t).completed = v) ∧
        (b.priority = none →
          (applyTodoUpdates (day7PutUpdates b) now t).priority = t.priority) ∧
        (∀ v, b.priority = some v →
          (applyTodoUpdates (day7PutUpdates b) now t).priority = v) ∧
        (b.dueDate = none →
          (applyTodoUpdates (day7PutUpdates b) now t).dueDate = t.dueDate) ∧
        (∀ v, b.dueDate = some v →
          (applyTodoUpdates (day7PutUpdates b) now t).dueDate = v) ∧
        (b.tags = none → (applyTodoUpdates (day7PutUpdates b) now t).tags = t.tags) ∧
        (∀ v, b.tags = some v →
          (applyTodoUpdates (day7PutUpdates b) now t).tags = v) ∧
        (day7PutTodoSqlite s id uid b now).2.users = s.users ∧
        (day7PutTodoSqlite s id uid b now).2.nextUserId = s.nextUserId ∧
        (day7PutTodoSqlite s id uid b now).2.nextTodoId = s.nextTodoId ∧
        applyTodoUpdates (day7PutUpdates b) now t
          ∈ (day7PutTodoSqlite s id uid b now).2.todos ∧
        (∀ t2 ∈ s.todos, t2.id ≠ id →
          t2 ∈ (day7PutTodoSqlite s id uid b now).2.todos) ∧
        (∀ t2 ∈ (day7PutTodoSqlite s id uid b now).2.todos,
          t2 = applyTodoUpdates (day7PutUpdates b) now t ∨ t2 ∈ s.todos)) ∧
    (∀ s id uid (b : PutTodoBody) now (t : MTodo), putTaskInvalid b.task = false →
      t ∈ s.todos → t.oid = id → t.user = uid →
      (∀ t2 ∈ s.todos, t2.oid = id → t2 = t) →
      (day7PutTodoMongo s id uid b now).1
          = PutOut.updated (applyMTodoUpdates (day7PutUpdatesMongo b) now t) ∧
        (applyMTodoUpdates (day7PutUpdatesMongo b) now t).oid = t.oid ∧
        (applyMTodoUpdates (day7PutUpdatesMongo b) now t).user = t.user ∧
        (applyMTodoUpdates (day7PutUpdatesMongo b) now t).createdAt = t.createdAt ∧
        (applyMTodoUpdates (day7PutUpdatesMongo b) now t).updatedAt = now ∧
        (b.task = none →
          (applyMTodoUpdates (day7PutUpdatesMongo b) now t).task = t.task) ∧
        (∀ v, b.task = some v →
          (applyMTodoUpdates (day7PutUpdatesMongo b) now t).task = jsTrim v) ∧
        (b.description = none →
          (applyMTodoUpdates (day7PutUpdatesMongo b) now t).description
            = t.description) ∧
        (∀ v, b.description = some v →
          (applyMTodoUpdates (day7PutUpdatesMongo b) now t).description
            = some (jsTrim v)) ∧
        (b.completed = none →
          (applyMTodoUpdates (day7PutUpdatesMongo b) now t).completed
            = t.completed) ∧
        (∀ v, b.completed = some v →
          (applyMTodoUpdates (day7PutUpdatesMongo b) now t).completed = v) ∧
        (b.priority = none →
          (applyMTodoUpdates (day7PutUpdatesMongo b) now t).priority
            = t.priority) ∧
        (∀ v, b.priority = some v →
          (applyMTodoUpdates (day7PutUpdatesMongo b) now t).priority = v) ∧
        (b.dueDate = none →
          (applyMTodoUpdates (day7PutUpdatesMongo b) now t).dueDate = t.dueDate) ∧
        (∀ v, b.dueDate = some v →
          (applyMTodoUpdates (day7PutUpdatesMongo b) now t).dueDate = v) ∧
        (b.tags = none →
          (applyMTodoUpdates (day7PutUpdatesMongo b) now t).tags = t.tags) ∧
        (∀ v, b.tags = some v →
          (applyMTodoUpdates (day7PutUpdatesMongo b) now t).tags = v.map jsTrim) ∧
        (day7PutTodoMongo s id uid b now).2.users = s.users ∧
        applyMTodoUpdates (day7PutUpdatesMongo b) now t
          ∈ (day7PutTodoMongo s id uid b now).2.todos ∧
        (∀ t2 ∈ s.todos, t2.oid ≠ id →
          t2 ∈ (day7PutTodoMongo s id uid b now).2.todos) ∧
        (∀ t2 ∈ (day7PutTodoMongo s id uid b now).2.todos,
          t2 = applyMTodoUpdates (day7PutUpdatesMongo b) now t ∨ t2 ∈ s.todos)) ∧
    (∀ s id uid task completed priority now (t : D6Todo),
      t ∈ s.todos → t.id = id → t.userId = some uid →
      (∀ t2 ∈ s.todos, t2.id = id → t2 = t) →
      ∀ r, r = { t with
          task := match task with | some v => jsTrim v | none => t.task
          completed := completed.getD t.completed
          priority := priority.getD t.priority
          updatedAt := some now } →
      (day6PutTodoMem s id uid task completed priority now).1
          = PutOut.updated r ∧
        r.id = t.id ∧ r.userId = t.userId ∧ r.createdAt = t.createdAt ∧
        r.updatedAt = some now ∧
        (task = none → r.task = t.task) ∧
        (∀ v, task = some v → r.task = jsTrim v) ∧
        (completed = none → r.completed = t.completed) ∧
        (∀ v, completed = some v → r.completed = v) ∧
        (priority = none → r.priority = t.priority) ∧
        (∀ v, priority = some v → r.priority = v) ∧
        (day6PutTodoMem s id uid task completed priority now).2.nextId = s.nextId ∧
        (∀ t2 ∈ s.todos, t2.id ≠ id →
          t2 ∈ (day6PutTodoMem s id uid task completed priority now).2.todos) ∧
        (∀ t2 ∈ (day6PutTodoMem s id uid task completed priority now).2.todos,
          t2 = r ∨ t2 ∈ s.todos)) := by
  refine ⟨?_, ?_, ?_⟩
  · intro s id uid b now t hval ht hid huid huniq
    have hmain := day7PutTodoSqlite_main s id uid b now t hval ht hid huid huniq
    have hcond : (t.id == id && t.userId == uid) = true := by simp [hid, huid]
    refine ⟨by rw [hmain], rfl, rfl, rfl, rfl,
      (fun h => by simp [applyTodoUpdates, day7PutUpdates, h]),
      (fun v h => by simp [applyTodoUpdates, day7PutUpdates, h]),
      (fun h => by simp [applyTodoUpdates, day7PutUpdates, h]),
      (fun v h => by simp [applyTodoUpdates, day7PutUpdates, h]),
      (fun h => by simp [applyTodoUpdates, day7PutUpdates, h]),
      (fun v h => by simp [applyTodoUpdates, day7PutUpdates, h]),
      (fun h => by simp [applyTodoUpdates, day7PutUpdates, h]),
      (fun v h => by simp [applyTodoUpdates, day7PutUpdates, h]),
      (fun h => by simp [applyTodoUpdates, day7PutUpdates, h]),
      (fun v h => by simp [applyTodoUpdates, day7PutUpdates, h]),
      (fun h => by simp [applyTodoUpdates, day7PutUpdates, h]),
      (fun v h => by simp [applyTodoUpdates, day7PutUpdates, h]),
      by rw [hmain], by rw [hmain], by rw [hmain], ?_, ?_, ?_⟩
    · rw [hmain]
      have heq : applyTodoUpdates (day7PutUpdates b) now t
          = (fun x => if x.id == id && x.userId == uid then
              applyTodoUpdates (day7PutUpdates b) now x else x) t := by
        simp [hcond]
      rw [heq]
      exact List.mem_map_of_mem _ ht
    · intro t2 h2 hne
      rw [hmain]
      exact mem_map_no_match _ _ _ _ h2 (by simp [hne])
    · intro t2 h2
      rw [hmain] at h2
      obtain ⟨x, hx, heq⟩ := List.mem_map.mp h2
      by_cases hc : (x.id == id && x.userId == uid) = true
      · left
        have hxid : x.id = id := by
          have := (Bool.and_eq_true _ _).mp hc
          exact eq_of_beq this.1
        have hxt : x = t := huniq x hx hxid
        rw [← heq, if_pos hc, hxt]
      · right
        rw [← heq, if_neg hc]
        exact hx
  · intro s id uid b now t hval ht hid huid huniq
    have hmain := day7PutTodoMongo_main s id uid b now t hval ht hid huid huniq
    have hcond : (t.oid == id && t.user == uid) = true := by simp [hid, huid]
    refine ⟨by rw [hmain], rfl, rfl, rfl, rfl,
      (fun h => by simp [applyMTodoUpdates, day7PutUpdatesMongo, day7PutUpdates, h]),
      (fun v h => by simp [applyMTodoUpdates, day7PutUpdatesMongo, day7PutUpdates, h]),
      (fun h => by simp [applyMTodoUpdates, day7PutUpdatesMongo, day7PutUpdates, h]),
      (fun v h => by simp [applyMTodoUpdates, day7PutUpdatesMongo, day7PutUpdates, h]),
      (fun h => by simp [applyMTodoUpdates, day7PutUpdatesMongo, day7PutUpdates, h]),
      (fun v h => by simp [applyMTodoUpdates, day7PutUpdatesMongo, day7PutUpdates, h]),
      (fun h => by simp [applyMTodoUpdates, day7PutUpdatesMongo, day7PutUpdates, h]),
      (fun v h => by simp [applyMTodoUpdates, day7PutUpdatesMongo, day7PutUpdates, h]),
      (fun h => by simp [applyMTodoUpdates, day7PutUpdatesMongo, day7PutUpdates, h]),
      (fun v h => by simp [applyMTodoUpdates, day7PutUpdatesMongo, day7PutUpdates, h]),
      (fun h => by simp [applyMTodoUpdates, day7PutUpdatesMongo, day7PutUpdates, h]),
      (fun v h => by simp [applyMTodoUpdates, day7PutUpdatesMongo, day7PutUpdates, h]),
      by rw [hmain], ?_, ?_, ?_⟩
    · rw [hmain]
      have heq : applyMTodoUpdates (day7PutUpdatesMongo b) now t
          = (fun x => if x.oid == id && x.user == uid then
              applyMTodoUpdates (day7PutUpdatesMongo b) now x else x) t := by
        simp [hcond]
      rw [heq]
      exact List.mem_map_of_mem _ ht
    · intro t2 h2 hne
      rw [hmain]
      exact mem_map_no_match _ _ _ _ h2 (by simp [hne])
    · intro t2 h2
      rw [hmain] at h2
      obtain ⟨x, hx, heq⟩ := List.mem_map.mp h2
      by_cases hc : (x.oid == id && x.user == uid) = true
      · left
        have hxid : x.oid = id := by
          have := (Bool.and_eq_true _ _).mp hc
          exact eq_of_beq this.1
        have hxt : x = t := huniq x hx hxid
        rw [← heq, if_pos hc, hxt]
      · right
        rw [← heq, if_neg hc]
        exact hx
  · intro s id uid task completed priority now t ht hid huid huniq r hr
    have hmain := day6PutTodoMem_main s id uid task completed priority now t
      ht hid huid huniq
    have hcond : (t.id == id && t.userId == some uid) = true := by simp [hid, huid]
    subst hr
    refine ⟨by rw [hmain], rfl, rfl, rfl, rfl,
      (fun h => by simp [h]),
      (fun v h => by simp [h]),
      (fun h => by simp [h]),
      (fun v h => by simp [h]),
      (fun h => by simp [h]),
      (fun v h => by simp [h]),
      by rw [hmain], ?_, ?_⟩
    · intro t2 h2 hne
      rw [hmain]
      exact mem_map_no_match _ _ _ _ h2 (by simp [hne])
    · intro t2 h2
      rw [hmain] at h2
      obtain ⟨x, hx, heq⟩ := List.mem_map.mp h2
      by_cases hc : (x.id == id && x.userId == some uid) = true
      · left
        have hxid : x.id = id := by
          have := (Bool.and_eq_true _ _).mp hc
          exact eq_of_beq this.1
        have hxt : x = t := huniq x hx hxid
        rw [← heq, if_pos hc, hxt]
      · right
        rw [← heq, if_neg hc]
        exact hx

/-- Witness for C5: updating only `completed` of a concrete owned todo via
the Day 7 SQLite branch replaces exactly that field. -/
theorem c5_put_partial_replace_witness :
    (day7PutTodoSqlite c5StateEx 1 1 putBodyEx 9).1
      = PutOut.updated (applyTodoUpdates (day7PutUpdates putBodyEx) 9 sTodoEx) :=
  (c5_put_partial_replace.1 c5StateEx 1 1 putBodyEx 9 sTodoEx (by decide)
    (by simp [c5StateEx]) rfl rfl
    (by intro t2 h2 _; simpa [c5StateEx] using h2)).1

-- C9: create-todo validation

/-- C9, counterexample: the Day 7 create handler (part_001:1080-1085, cited
by the claim) rejects a short task with the message
"Task is required and must be at least 3 characters." - with a trailing
period, which differs from the message the claim states. -/
theorem c9_counterexample :
    (day7CreateTodoSqlite sqliteInit c9BodyEx 1 0).1
        = Except.error "Task is required and must be at least 3 characters."
      ∧ "Task is required and must be at least 3 characters."
          ≠ "Task is required and must be at least 3 characters" := by
  exact ⟨rfl, by decide⟩

/-- C9 (amended): for every POST /api/todos request whose body lacks a task
or whose task, after trimming, is shorter than 3 characters, the handler
rejects the request (status 400) with the message "Task is required and must
be at least 3 characters" in the Day 4 and Day 6 servers and "Task is
required and must be at least 3 characters." (trailing period) in the Day 7
server, and the todo store is unchanged. -/
theorem c9_create_validation :
    (∀ s task prio now, badTask task = true →
        day4CreateTodoMem s task prio now
          = (Except.error "Task is required and must be at least 3 characters", s)) ∧
    (∀ s task prio uid now, badTask task = true →
        day6CreateTodoMem s task prio uid now
          = (Except.error "Task is required and must be at least 3 characters", s)) ∧
    (∀ s b uid now, badTask b.task = true →
        day7CreateTodoSqlite s b uid now
          = (Except.error "Task is required and must be at least 3 characters.", s)) ∧
    (∀ s b uid oid now, badTask b.task = true →
        day7CreateTodoMongo s b uid oid now
          = (Except.error "Task is required and must be at least 3 characters.", s)) := by
  refine ⟨?_, ?_, ?_, ?_⟩
  · intro s task prio now h
    unfold day4CreateTodoMem
    rw [if_pos h]
  · intro s task prio uid now h
    unfold day6CreateTodoMem
    rw [if_pos h]
  · intro s b uid now h
    unfold day7CreateTodoSqlite
    rw [if_pos h]
  · intro s b uid oid now h
    unfold day7CreateTodoMongo
    rw [if_pos h]

/-- Witness for C9's amended theorem: a concrete two-character task is
rejected by the Day 7 SQLite branch and leaves the store unchanged. -/
theorem c9_create_validation_witness :
    day7CreateTodoSqlite sqliteInit c9BodyEx 1 0
      = (Except.error "Task is required and must be at least 3 characters.",
         sqliteInit) :=
  c9_create_validation.2.2.1 sqliteInit c9BodyEx 1 0 (by decide)

-- C8: cascade on user removal

/-- C8, counterexample: the claim fails on the MongoDB backend.  Removing the
only user from a concrete Mongo store (no route does this, and the schema
defines no cascade - removing the user document is just a deletion from the
users collection) leaves its todo in place, referencing a user that no
longer exists. -/
theorem c8_counterexample :
    (mongoRemoveUser c8StateEx "aaaaaaaaaaaaaaaaaaaaaaaa").todos = [mTodoEx]
      ∧ (mongoRemoveUser c8StateEx "aaaaaaaaaaaaaaaaaaaaaaaa").users = []
      ∧ mTodoEx.user = "aaaaaaaaaaaaaaaaaaaaaaaa" := by
  exact ⟨by decide, by decide, rfl⟩

/-- C8 (amended): only the SQLite schema declares a cascade, and no server
exposes a user-removal operation.  Under the declared `ON DELETE CASCADE`
semantics (which additionally need foreign-key enforcement enabled, which
the code never turns on), deleting a user removes exactly that user's todos:
no remaining todo references the removed user, referential integrity is
preserved, and todos and users not involved survive.  The MongoDB backend
defines no cascade at all (see the counterexample). -/
theorem c8_cascade_sqlite :
    (∀ s uid, ∀ t ∈ (sqliteDeleteUserCascade s uid).todos, t.userId ≠ uid) ∧
    (∀ s uid, (∀ t ∈ s.todos, ∃ u ∈ s.users, u.id = t.userId) →
        ∀ t ∈ (sqliteDeleteUserCascade s uid).todos,
          ∃ u ∈ (sqliteDeleteUserCascade s uid).users, u.id = t.userId) ∧
    (∀ s uid t, t ∈ s.todos → t.userId ≠ uid →
        t ∈ (sqliteDeleteUserCascade s uid).todos) ∧
    (∀ s uid u, u ∈ s.users → u.id ≠ uid →
        u ∈ (sqliteDeleteUserCascade s uid).users) ∧
    (∀ s uid u, u ∈ (sqliteDeleteUserCascade s uid).users → u.id ≠ uid) := by
  refine ⟨?_, ?_, ?_, ?_, ?_⟩
  · intro s uid t ht
    have := List.of_mem_filter ht
    simpa using this
  · intro s uid href t ht
    have htodo : t ∈ s.todos := List.mem_of_mem_filter ht
    have hne : t.userId ≠ uid := by
      have := List.of_mem_filter ht
      simpa using this
    obtain ⟨u, hu, hid⟩ := href t htodo
    refine ⟨u, List.mem_filter.mpr ⟨hu, ?_⟩, hid⟩
    simp [hid, hne]
  · intro s uid t ht hne
    exact List.mem_filter.mpr ⟨ht, by simp [hne]⟩
  · intro s uid u hu hne
    exact List.mem_filter.mpr ⟨hu, by simp [hne]⟩
  · intro s uid u hu
    have := List.of_mem_filter hu
    simpa using this

/-- Witness for C8's amended theorem: deleting user 1 from a concrete SQLite
store keeps the todo owned by user 2. -/
theorem c8_cascade_sqlite_witness :
    sTodoEx2 ∈ (sqliteDeleteUserCascade c8SqliteEx2 1).todos :=
  c8_cascade_sqlite.2.2.1 c8SqliteEx2 1 sTodoEx2 (by simp [c8SqliteEx2])
    (by decide)

-- C10: login does not reveal which credential was wrong

/-- C10 (amended): login does not reveal which credential was wrong.  For
every login request, the response produced when the email matches no user
is the very same response as the response produced when the email matches a
user but the bcrypt comparison fails, in the MongoDB and fallback branches
of both the Day 5 and the Day 7 login handlers: status 401 with error body
"Invalid credentials" in the Day 5 server and "Invalid credentials."
(trailing period) in the Day 7 server. -/
theorem c10_login_indistinguishable :
    (∀ ms ss e1 p1 e2 p2 u (bcmp : String → String → Bool),
        e1 ≠ "" → p1 ≠ "" → e2 ≠ "" → p2 ≠ "" →
        ms.users.find? (fun x => x.email == e1) = none →
        ms.users.find? (fun x => x.email == e2) = some u →
        bcmp p2 u.password = false →
        day7Login .mongodb ms ss e1 p1 bcmp = day7Login .mongodb ms ss e2 p2 bcmp ∧
        day7LoginStatus (day7Login .mongodb ms ss e1 p1 bcmp) = 401 ∧
        day7LoginError (day7Login .mongodb ms ss e1 p1 bcmp)
          = some "Invalid credentials.") ∧
    (∀ ms ss e1 p1 e2 p2 u (bcmp : String → String → Bool),
        e1 ≠ "" → p1 ≠ "" → e2 ≠ "" → p2 ≠ "" →
        sqliteFindUserByEmail ss.users e1 = none →
        sqliteFindUserByEmail ss.users e2 = some u →
        bcmp p2 u.password = false →
        day7Login .sqlite ms ss e1 p1 bcmp = day7Login .sqlite ms ss e2 p2 bcmp ∧
        day7LoginStatus (day7Login .sqlite ms ss e1 p1 bcmp) = 401 ∧
        day7LoginError (day7Login .sqlite ms ss e1 p1 bcmp)
          = some "Invalid credentials.") ∧
    (∀ mU s e1 p1 e2 p2 u (bcmp : String → String → Bool),
        e1 ≠ "" → p1 ≠ "" → e2 ≠ "" → p2 ≠ "" →
        mU.find? (fun x => x.email == e1) = none →
        mU.find? (fun x => x.email == e2) = some u →
        bcmp p2 u.password = false →
        day5Login true mU s e1 p1 bcmp = day5Login true mU s e2 p2 bcmp ∧
        day5LoginStatus (day5Login true mU s e1 p1 bcmp) = 401 ∧
        day5LoginError (day5Login true mU s e1 p1 bcmp)
          = some "Invalid credentials") ∧
    (∀ mU s e1 p1 e2 p2 u (bcmp : String → String → Bool),
        e1 ≠ "" → p1 ≠ "" → e2 ≠ "" → p2 ≠ "" →
        s.users.find? (fun x => x.email == e1) = none →
        s.users.find? (fun x => x.email == e2) = some u →
        bcmp p2 u.password = false →
        day5Login false mU s e1 p1 bcmp = day5Login false mU s e2 p2 bcmp ∧
        day5LoginStatus (day5Login false mU s e1 p1 bcmp) = 401 ∧
        day5LoginError (day5Login false mU s e1 p1 bcmp)
          = some "Invalid credentials") := by
  refine ⟨?_, ?_, ?_, ?_⟩
  · intro ms ss e1 p1 e2 p2 u bcmp h1 h2 h3 h4 hf1 hf2 hb
    have r1 : day7Login .mongodb ms ss e1 p1 bcmp = .invalid := by
      unfold day7Login
      rw [if_neg (by simp [h1, h2])]
      simp [hf1]
    have r2 : day7Login .mongodb ms ss e2 p2 bcmp = .invalid := by
      unfold day7Login
      rw [if_neg (by simp [h3, h4])]
      simp [hf2, hb]
    rw [r1, r2]
    exact ⟨rfl, rfl, rfl⟩
  · intro ms ss e1 p1 e2 p2 u bcmp h1 h2 h3 h4 hf1 hf2 hb
    have r1 : day7Login .sqlite ms ss e1 p1 bcmp = .invalid := by
      unfold day7Login
      rw [if_neg (by simp [h1, h2])]
      simp [hf1]
    have r2 : day7Login .sqlite ms ss e2 p2 bcmp = .invalid := by
      unfold day7Login
      rw [if_neg (by simp [h3, h4])]
      simp [hf2, hb]
    rw [r1, r2]
    exact ⟨rfl, rfl, rfl⟩
  · intro mU s e1 p1 e2 p2 u bcmp h1 h2 h3 h4 hf1 hf2 hb
    have r1 : day5Login true mU s e1 p1 bcmp = .invalid := by
      unfold day5Login
      rw [if_neg (by simp [h1, h2])]
      simp [hf1]
    have r2 : day5Login true mU s e2 p2 bcmp = .invalid := by
      unfold day5Login
      rw [if_neg (by simp [h3, h4])]
      simp [hf2, hb]
    rw [r1, r2]
    exact ⟨rfl, rfl, rfl⟩
  · intro mU s e1 p1 e2 p2 u bcmp h1 h2 h3 h4 hf1 hf2 hb
    have r1 : day5Login false mU s e1 p1 bcmp = .invalid := by
      unfold day5Login
      rw [if_neg (by simp [h1, h2])]
      simp [hf1]
    have r2 : day5Login false mU s e2 p2 bcmp = .invalid := by
      unfold day5Login
      rw [if_neg (by simp [h3, h4])]
      simp [hf2, hb]
    rw [r1, r2]
    exact ⟨rfl, rfl, rfl⟩

/-- C10, counterexample: the Day 7 login handler (part_001:971 and 980,
cited by the claim) answers both failure modes with the error body
"Invalid credentials." - a trailing period, differing from the error body
the claim states.  At a concrete unknown-email request the response error
is the period-bearing string. -/
theorem c10_counterexample :
    day7LoginError (day7Login .sqlite mongoInit c8SqliteEx "zed@example.com"
        "pw" alwaysFailBcmp) = some "Invalid credentials."
      ∧ "Invalid credentials." ≠ "Invalid credentials" := by
  exact ⟨by decide, by decide⟩

/-- Witness for C10's amended theorem: a concrete store in which an unknown
email and a known email with the wrong password draw the same Day 7 SQLite
response. -/
theorem c10_login_indistinguishable_witness :
    day7Login .sqlite mongoInit c8SqliteEx "zed@example.com" "pw" (fun _ _ => false)
      = day7Login .sqlite mongoInit c8SqliteEx "ada@example.com" "pw" (fun _ _ => false) :=
  (c10_login_indistinguishable.2.1 mongoInit c8SqliteEx "zed@example.com" "pw"
    "ada@example.com" "pw" sUserEx (fun _ _ => false) (by decide) (by decide)
    (by decide) (by decide) (by decide) (by decide) rfl).1

-- C6: the persistence shim

theorem find?_congr_mem {α : Type} {p q : α → Bool} :
    ∀ l : List α, (∀ x ∈ l, p x = q x) → l.find? p = l.find? q := by
  intro l
  induction l with
  | nil => intro _; rfl
  | cons a l ih =>
    intro h
    simp only [List.find?_cons]
    rw [← h a (List.mem_cons_self a l)]
    cases hpa : p a
    · exact ih (fun x hx => h x (List.mem_cons_of_mem a hx))
    · rfl

theorem any_map_pair_m (e : String) : ∀ ml : List MUser,
    ml.any (fun u => u.email == e)
      = (ml.map (fun u => (u.email, u.password))).any (fun x => x.1 == e) := by
  intro ml
  induction ml with
  | nil => rfl
  | cons a l ih => simp [List.any_cons, ih]

theorem any_map_pair_s (e : String) : ∀ sl : List SUser,
    sl.any (fun u => u.email == e)
      = (sl.map (fun u => (u.email, u.password))).any (fun x => x.1 == e) := by
  intro sl
  induction sl with
  | nil => rfl
  | cons a l ih => simp [List.any_cons, ih]

theorem any_email_eq (ml : List MUser) (sl : List SUser) (e : String)
    (hcorr : ml.map (fun u => (u.email, u.password))
      = sl.map (fun u => (u.email, u.password))) :
    ml.any (fun u => u.email == e) = sl.any (fun u => u.email == e) := by
  rw [any_map_pair_m, any_map_pair_s, hcorr]

theorem find_email_corr (e : String) :
    ∀ (ml : List MUser) (sl : List SUser),
      ml.map (fun u => (u.email, u.password))
        = sl.map (fun u => (u.email, u.password)) →
      (∀ u ∈ sl, u.isActive = true) →
      Option.map MUser.password (ml.find? (fun u => u.email == e))
        = Option.map SUser.password (sqliteFindUserByEmail sl e) := by
  intro ml
  induction ml with
  | nil =>
    intro sl hcorr hact
    cases sl with
    | nil => rfl
    | cons s0 sl => simp at hcorr
  | cons m ml ih =>
    intro sl hcorr hact
    cases sl with
    | nil => simp at hcorr
    | cons s0 sl =>
      simp only [List.map_cons, List.cons.injEq, Prod.mk.injEq] at hcorr
      obtain ⟨⟨hem, hpw⟩, htail⟩ := hcorr
      have hs0 : s0.isActive = true := hact s0 (List.mem_cons_self _ _)
      unfold sqliteFindUserByEmail
      simp only [List.find?_cons]
      by_cases he : m.email = e
      · have h1 : (m.email == e) = true := by simp [he]
        have h2 : (s0.email == e && s0.isActive) = true := by
          simp [← hem, he, hs0]
        rw [h1, h2]
        simp [hpw]
      · have h1 : (m.email == e) = false := by simp [he]
        have h2 : (s0.email == e && s0.isActive) = false := by
          simp [← hem, he]
        rw [h1, h2]
        have h3 := ih sl htail (fun u hu => hact u (List.mem_cons_of_mem _ hu))
        unfold sqliteFindUserByEmail at h3
        exact h3

/-- C6, counterexample: the same request, GET /api/todos/4 by an
authenticated user against the empty store, draws status 500 from the
MongoDB branch (the id "4" is not a valid ObjectId, the cast error reaches
the error middleware) and status 404 from the SQLite branch, so the
observable responses are not the same regardless of which backend served
the sequence. -/
theorem c6_counterexample :
    day7GetTodoMongoStatus mongoInit "4" "aaaaaaaaaaaaaaaaaaaaaaaa" = 500
      ∧ day7GetTodoSqliteStatus sqliteInit "4" 1 = 404
      ∧ (500 : Nat) ≠ 404 := by
  exact ⟨by decide, by decide, by decide⟩

/-- C6 (amended): the Day 7 shim dispatches to MongoDB exactly when the
mongoose connection is up (readyState 1) and otherwise to SQLite when the
fallback instance exists (the Day 4-6 shim likewise selects MongoDB iff
readyState is 1); and over corresponding user stores (same emails and
password hashes, all rows active) registration and login produce the same
observable outcome - hence the same status code and envelope - whichever
backend serves them.  Todo reads parameterized by an id, however, can
differ between the backends (see the counterexample). -/
theorem c6_shim_dispatch_equiv :
    (∀ rs sq, ((canUseDB7 rs sq).1 = DbType.mongodb ↔ rs = 1) ∧
      (rs ≠ 1 → sq = true → (canUseDB7 rs sq).1 = DbType.sqlite) ∧
      (rs ≠ 1 → sq = false → (canUseDB7 rs sq).1 = DbType.nodb) ∧
      (canUseDB6 rs = true ↔ rs = 1)) ∧
    (∀ ms ss i hash oid now,
      ms.users.map (fun u => (u.email, u.password))
        = ss.users.map (fun u => (u.email, u.password)) →
      (∀ u ∈ ss.users, u.isActive = true) →
      (day7Register .mongodb ms ss i hash oid now).1
        = (day7Register .sqlite ms ss i hash oid now).1) ∧
    (∀ ms ss e p (bcmp : String → String → Bool),
      ms.users.map (fun u => (u.email, u.password))
        = ss.users.map (fun u => (u.email, u.password)) →
      (∀ u ∈ ss.users, u.isActive = true) →
      day7Login .mongodb ms ss e p bcmp = day7Login .sqlite ms ss e p bcmp) := by
  refine ⟨?_, ?_, ?_⟩
  · intro rs sq
    refine ⟨?_, ?_, ?_, ?_⟩
    · unfold canUseDB7
      by_cases h : rs = 1
      · simp [h]
      · have : (rs == 1) = false := by simp [h]
        simp [this, h]
        split <;> simp
    · intro h hsq
      have hb : (rs == 1) = false := by simp [h]
      unfold canUseDB7
      simp [hb, hsq]
    · intro h hsq
      have hb : (rs == 1) = false := by simp [h]
      unfold canUseDB7
      simp [hb, hsq]
    · unfold canUseDB6
      simp
  · intro ms ss i hash oid now hcorr hact
    unfold day7Register
    cases hval : regValidationError7 i with
    | some m => rfl
    | none =>
      have hany := any_email_eq ms.users ss.users i.email hcorr
      have hfindeq : sqliteFindUserByEmail ss.users i.email
          = ss.users.find? (fun u => u.email == i.email) := by
        unfold sqliteFindUserByEmail
        apply find?_congr_mem
        intro x hx
        simp [hact x hx]
      cases hfind : ss.users.find? (fun u => u.email == i.email) with
      | some u =>
        have hmem : u ∈ ss.users := List.mem_of_find?_eq_some hfind
        have hpred : (u.email == i.email) = true :=
          @List.find?_some _ (fun u => u.email == i.email) u ss.users hfind
        have hanys : ss.users.any (fun u => u.email == i.email) = true := by
          simp only [List.any_eq_true]
          exact ⟨u, hmem, hpred⟩
        rw [if_pos (hany.trans hanys), hfindeq, hfind]
      | none =>
        have hanys : ss.users.any (fun u => u.email == i.email) = false := by
          rw [List.any_eq_false]
          intro x hx
          have := List.find?_eq_none.mp hfind x hx
          simpa using this
        rw [if_neg (by rw [hany, hanys]; simp), hfindeq, hfind]
        unfold sqliteCreateUser
        rw [if_neg (by rw [hanys]; simp)]
  · intro ms ss e p bcmp hcorr hact
    unfold day7Login
    by_cases hv : (e == "" || p == "") = true
    · rw [if_pos hv, if_pos hv]
    · rw [if_neg hv, if_neg hv]
      have hpm := find_email_corr e ms.users ss.users hcorr hact
      cases hs : sqliteFindUserByEmail ss.users e with
      | none =>
        cases hm : ms.users.find? (fun u => u.email == e) with
        | none => rfl
        | some m =>
          rw [hs, hm] at hpm
          simp at hpm
      | some u =>
        cases hm : ms.users.find? (fun u => u.email == e) with
        | none =>
          rw [hs, hm] at hpm
          simp at hpm
        | some m =>
          rw [hs, hm] at hpm
          have hpw : m.password = u.password := by
            simpa using hpm
          simp [hpw]

/-- Witness for C6's amended theorem: over the empty (corresponding) stores
a concrete registration draws the same outcome from both backends. -/
theorem c6_shim_dispatch_equiv_witness :
    (day7Register .mongodb mongoInit sqliteInit regInputEx idHash
        "aaaaaaaaaaaaaaaaaaaaaaaa" 0).1
      = (day7Register .sqlite mongoInit sqliteInit regInputEx idHash
        "aaaaaaaaaaaaaaaaaaaaaaaa" 0).1 :=
  c6_shim_dispatch_equiv.2.1 mongoInit sqliteInit regInputEx idHash
    "aaaaaaaaaaaaaaaaaaaaaaaa" 0 rfl (by simp [sqliteInit])

-- C4: the password is never serialized

theorem hasKeyDeepList_map_str (k : String) (l : List String) :
    Jx.hasKeyDeepList k (l.map Jx.str) = false := by
  induction l with
  | nil => rfl
  | cons a l ih => simp [Jx.hasKeyDeepList, Jx.hasKeyDeep, ih]

theorem hasKeyDeepList_map_false {α : Type} (k : String) (f : α → Jx)
    (hf : ∀ a, Jx.hasKeyDeep k (f a) = false) (l : List α) :
    Jx.hasKeyDeepList k (l.map f) = false := by
  induction l with
  | nil => rfl
  | cons a l ih => simp [Jx.hasKeyDeepList, hf, ih]

theorem hasKeyDeep_obj (k : String) (fields : List (String × Jx)) :
    Jx.hasKeyDeep k (Jx.obj fields) = Jx.hasKeyDeepFields k fields := by
  simp [Jx.hasKeyDeep]

theorem hasKeyDeep_arr (k : String) (elts : List Jx) :
    Jx.hasKeyDeep k (Jx.arr elts) = Jx.hasKeyDeepList k elts := by
  simp [Jx.hasKeyDeep]

theorem hasKeyDeep_str (k s : String) : Jx.hasKeyDeep k (Jx.str s) = false := by
  simp [Jx.hasKeyDeep]

theorem hasKeyDeep_num (k : String) (n : Int) :
    Jx.hasKeyDeep k (Jx.num n) = false := by
  simp [Jx.hasKeyDeep]

theorem hasKeyDeep_jbool (k : String) (b : Bool) :
    Jx.hasKeyDeep k (Jx.jbool b) = false := by
  simp [Jx.hasKeyDeep]

theorem hasKeyDeep_null (k : String) : Jx.hasKeyDeep k Jx.null = false := by
  simp [Jx.hasKeyDeep]

theorem hasKeyDeepFields_nil (k : String) :
    Jx.hasKeyDeepFields k [] = false := by
  simp [Jx.hasKeyDeepFields]

theorem hasKeyDeepFields_cons (k : String) (f : String × Jx)
    (fs : List (String × Jx)) :
    Jx.hasKeyDeepFields k (f :: fs)
      = (f.1 == k || Jx.hasKeyDeep k f.2 || Jx.hasKeyDeepFields k fs) := by
  simp [Jx.hasKeyDeepFields]

theorem hasKeyDeepList_nil (k : String) : Jx.hasKeyDeepList k [] = false := by
  simp [Jx.hasKeyDeepList]

theorem hasKeyDeepList_cons (k : String) (x : Jx) (xs : List Jx) :
    Jx.hasKeyDeepList k (x :: xs)
      = (Jx.hasKeyDeep k x || Jx.hasKeyDeepList k xs) := by
  simp [Jx.hasKeyDeepList]

theorem mUserToJSON_no_password (u : MUser) :
    Jx.hasKeyDeep "password" (mUserToJSON u) = false := by
  cases h : u.lastLogin <;>
    simp [mUserToJSON, h, optField, Jx.hasKeyDeep, Jx.hasKeyDeepFields]

theorem mUserRegisterJx_no_password (u : MUser) :
    Jx.hasKeyDeep "password" (mUserRegisterJx u) = false := by
  cases h : u.lastLogin <;>
    simp [mUserRegisterJx, h, optField, Jx.hasKeyDeep, Jx.hasKeyDeepFields]

theorem mUserObjectNoPassJx_no_password (u : MUser) :
    Jx.hasKeyDeep "password" (mUserObjectNoPassJx u) = false := by
  cases h : u.lastLogin <;>
    simp [mUserObjectNoPassJx, h, optField, Jx.hasKeyDeep, Jx.hasKeyDeepFields]

theorem mUserLoginJx_no_password (u : MUser) :
    Jx.hasKeyDeep "password" (mUserLoginJx u) = false := by
  cases h : u.lastLogin <;>
    simp [mUserLoginJx, h, optField, Jx.hasKeyDeep, Jx.hasKeyDeepFields]

theorem mUserAdminJx_no_password (u : MUser) :
    Jx.hasKeyDeep "password" (mUserAdminJx u) = false := by
  cases h : u.lastLogin <;>
    simp [mUserAdminJx, h, optField, Jx.hasKeyDeep, Jx.hasKeyDeepFields]

theorem sUserCreatedJx_no_password (u : SUser) :
    Jx.hasKeyDeep "password" (sUserCreatedJx u) = false := by
  simp [sUserCreatedJx, Jx.hasKeyDeep, Jx.hasKeyDeepFields]

theorem sUserNoPassJx_no_password (u : SUser) :
    Jx.hasKeyDeep "password" (sUserNoPassJx u) = false := by
  cases h : u.lastLogin <;>
    simp [sUserNoPassJx, h, Jx.hasKeyDeep, Jx.hasKeyDeepFields]

theorem mTodoJx_no_password (t : MTodo) :
    Jx.hasKeyDeep "password" (mTodoJx t) = false := by
  cases hd : t.description <;> cases hdd : t.dueDate <;>
    simp [mTodoJx, hd, hdd, optField, Jx.hasKeyDeep, Jx.hasKeyDeepFields,
      hasKeyDeepList_map_str]

theorem sTodoRowJx_no_password (t : STodo) :
    Jx.hasKeyDeep "password" (sTodoRowJx t) = false := by
  cases hd : t.description <;> cases hdd : t.dueDate <;>
    simp [sTodoRowJx, hd, hdd, Jx.hasKeyDeep, Jx.hasKeyDeepFields,
      hasKeyDeepList_map_str]

theorem sTodoCreatedJx_no_password (t : STodo) :
    Jx.hasKeyDeep "password" (sTodoCreatedJx t) = false := by
  cases hd : t.description <;> cases hdd : t.dueDate <;>
    simp [sTodoCreatedJx, hd, hdd, optField, Jx.hasKeyDeep,
      Jx.hasKeyDeepFields, hasKeyDeepList_map_str]

theorem mTodoAdminJx_no_password (t : MTodo) (n e : String) :
    Jx.hasKeyDeep "password" (mTodoAdminJx t n e) = false := by
  cases hd : t.description <;> cases hdd : t.dueDate <;>
    simp [mTodoAdminJx, hd, hdd, optField, Jx.hasKeyDeep,
      Jx.hasKeyDeepFields, hasKeyDeepList_map_str]

theorem sTodoAdminJx_no_password (t : STodo) (n e : String) :
    Jx.hasKeyDeep "password" (sTodoAdminJx t n e) = false := by
  cases hd : t.description <;> cases hdd : t.dueDate <;>
    simp [sTodoAdminJx, hd, hdd, Jx.hasKeyDeep, Jx.hasKeyDeepFields,
      hasKeyDeepList_map_str]

theorem m6UserToJSON_no_password (u : M6User) :
    Jx.hasKeyDeep "password" (m6UserToJSON u) = false := by
  cases h : u.lastLogin <;>
    simp [m6UserToJSON, h, optField, Jx.hasKeyDeep, Jx.hasKeyDeepFields]

theorem m6UserRegisterJx_no_password (u : M6User) :
    Jx.hasKeyDeep "password" (m6UserRegisterJx u) = false := by
  simp [m6UserRegisterJx, Jx.hasKeyDeep, Jx.hasKeyDeepFields]

theorem m6UserLoginJx_no_password (u : M6User) :
    Jx.hasKeyDeep "password" (m6UserLoginJx u) = false := by
  cases h : u.lastLogin <;>
    simp [m6UserLoginJx, h, optField, Jx.hasKeyDeep, Jx.hasKeyDeepFields]

theorem memUserNoPassJx_no_password (u : MemUser) :
    Jx.hasKeyDeep "password" (memUserNoPassJx u) = false := by
  simp [memUserNoPassJx, Jx.hasKeyDeep, Jx.hasKeyDeepFields]

theorem m6UserSummaryJx_no_password (u : M6User) :
    Jx.hasKeyDeep "password" (m6UserSummaryJx u) = false := by
  simp [m6UserSummaryJx, Jx.hasKeyDeep, Jx.hasKeyDeepFields]

theorem memUserSummaryJx_no_password (u : MemUser) :
    Jx.hasKeyDeep "password" (memUserSummaryJx u) = false := by
  simp [memUserSummaryJx, Jx.hasKeyDeep, Jx.hasKeyDeepFields]

theorem m6TodoJx_no_password (t : M6Todo) :
    Jx.hasKeyDeep "password" (m6TodoJx t) = false := by
  cases h : t.user <;>
    simp [m6TodoJx, h, optField, Jx.hasKeyDeep, Jx.hasKeyDeepFields]

theorem d6TodoJx_no_password (t : D6Todo) :
    Jx.hasKeyDeep "password" (d6TodoJx t) = false := by
  cases hu : t.userId <;> cases hc : t.createdAt <;> cases hup : t.updatedAt <;>
    simp [d6TodoJx, hu, hc, hup, optField, Jx.hasKeyDeep, Jx.hasKeyDeepFields]

theorem hasKeyDeepList_mUserAdmin (us : List MUser) :
    Jx.hasKeyDeepList "password" (us.map mUserAdminJx) = false :=
  hasKeyDeepList_map_false _ _ mUserAdminJx_no_password us

theorem hasKeyDeepList_sUserRows (us : List SUser) :
    Jx.hasKeyDeepList "password" (us.map sUserNoPassJx) = false :=
  hasKeyDeepList_map_false _ _ sUserNoPassJx_no_password us

theorem hasKeyDeepList_mTodos (ts : List MTodo) :
    Jx.hasKeyDeepList "password" (ts.map mTodoJx) = false :=
  hasKeyDeepList_map_false _ _ mTodoJx_no_password ts

theorem hasKeyDeepList_sTodoRows (ts : List STodo) :
    Jx.hasKeyDeepList "password" (ts.map sTodoRowJx) = false :=
  hasKeyDeepList_map_false _ _ sTodoRowJx_no_password ts

theorem hasKeyDeepList_mTodosAdmin (ts : List (MTodo × String × String)) :
    Jx.hasKeyDeepList "password"
      (ts.map fun p => mTodoAdminJx p.1 p.2.1 p.2.2) = false :=
  hasKeyDeepList_map_false _ _
    (fun p => mTodoAdminJx_no_password p.1 p.2.1 p.2.2) ts

theorem hasKeyDeepList_sTodosAdmin (ts : List (STodo × String × String)) :
    Jx.hasKeyDeepList "password"
      (ts.map fun p => sTodoAdminJx p.1 p.2.1 p.2.2) = false :=
  hasKeyDeepList_map_false _ _
    (fun p => sTodoAdminJx_no_password p.1 p.2.1 p.2.2) ts

theorem hasKeyDeepList_m6Users (us : List M6User) :
    Jx.hasKeyDeepList "password" (us.map m6UserToJSON) = false :=
  hasKeyDeepList_map_false _ _ m6UserToJSON_no_password us

theorem hasKeyDeepList_m6Todos (ts : List M6Todo) :
    Jx.hasKeyDeepList "password" (ts.map m6TodoJx) = false :=
  hasKeyDeepList_map_false _ _ m6TodoJx_no_password ts

theorem hasKeyDeepList_d6Todos (ts : List D6Todo) :
    Jx.hasKeyDeepList "password" (ts.map d6TodoJx) = false :=
  hasKeyDeepList_map_false _ _ d6TodoJx_no_password ts

/-- C4: the password field is never serialized.  For every JSON response of
the Day 7 server and of the Day 4-6 server, over every input (user records,
todos, tokens, messages, lists thereof), the response body contains no
`password` key at any depth: every user payload is built by a serializer
that omits or deletes the password (mongoose `toJSON`/explicit `delete`,
destructuring in the memory branch, password-free column lists in SQLite),
and todo payloads carry no password-bearing record at all. -/
theorem c4_password_never_serialized :
    (∀ r : Day7Resp, Jx.hasKeyDeep "password" (day7Body r) = false) ∧
    (∀ r : Day56Resp, Jx.hasKeyDeep "password" (day56Body r) = false) := by
  constructor
  · intro r
    cases r <;>
      simp [day7Body, hasKeyDeep_obj, hasKeyDeep_arr, hasKeyDeep_str,
        hasKeyDeep_num, hasKeyDeep_jbool, hasKeyDeep_null,
        hasKeyDeepFields_nil, hasKeyDeepFields_cons, hasKeyDeepList_nil,
        hasKeyDeepList_cons,
        mUserToJSON_no_password, mUserRegisterJx_no_password,
        mUserObjectNoPassJx_no_password,
        mUserLoginJx_no_password, sUserCreatedJx_no_password,
        sUserNoPassJx_no_password, mTodoJx_no_password,
        sTodoCreatedJx_no_password, sTodoRowJx_no_password,
        hasKeyDeepList_mUserAdmin, hasKeyDeepList_sUserRows,
        hasKeyDeepList_mTodos, hasKeyDeepList_sTodoRows,
        hasKeyDeepList_mTodosAdmin, hasKeyDeepList_sTodosAdmin]
  · intro r
    cases r <;>
      simp [day56Body, hasKeyDeep_obj, hasKeyDeep_arr, hasKeyDeep_str,
        hasKeyDeep_num, hasKeyDeep_jbool, hasKeyDeep_null,
        hasKeyDeepFields_nil, hasKeyDeepFields_cons, hasKeyDeepList_nil,
        hasKeyDeepList_cons,
        m6UserToJSON_no_password, m6UserRegisterJx_no_password,
        m6UserLoginJx_no_password, memUserNoPassJx_no_password,
        m6UserSummaryJx_no_password, memUserSummaryJx_no_password,
        m6TodoJx_no_password, d6TodoJx_no_password,
        hasKeyDeepList_m6Users, hasKeyDeepList_m6Todos,
        hasKeyDeepList_d6Todos]

-- C7: the response envelope

/-- C7, counterexample: GET /api/health of the Day 3-6 servers
(server.js:105-111, cited by the claim) responds with
`{status, database, uptime}` - no `success` field at all, so not every JSON
response is wrapped in the `{success, data|error}` envelope. -/
theorem c7_counterexample :
    isBoolField (day4HealthBody true 5) "success" = false
      ∧ (day4HealthBody true 5).getField "success" = none := by
  exact ⟨by decide, rfl⟩

/-- C7 (amended): every JSON response of the Day 7 server carries a boolean
`success` field; when `success` is false the body carries an `error` field;
when `success` is true the body carries a `data` field, except for the
delete-todo and logout responses, which carry only a `message`.  (In the
earlier servers the health, day-test and Day 1-2 endpoints are not
enveloped, and some success responses use other payload keys such as
`users`.) -/
theorem c7_envelope_amended :
    ∀ r : Day7Resp,
      isBoolField (day7Body r) "success" = true ∧
      (successIsFalse (day7Body r) = true →
        hasField (day7Body r) "error" = true) ∧
      (successIsTrue (day7Body r) = true →
        (hasField (day7Body r) "data" = true
          ∨ r = Day7Resp.deleteTodo ∨ r = Day7Resp.logout)) := by
  intro r
  cases r <;>
    simp [day7Body, isBoolField, successIsFalse, successIsTrue, hasField,
      Jx.getField, List.lookup]

/-- Witness for C7's amended theorem: the 404 response carries its error
field. -/
theorem c7_envelope_amended_witness :
    hasField (day7Body (Day7Resp.err 404 "Route /nope not found.")) "error"
      = true :=
  (c7_envelope_amended (Day7Resp.err 404 "Route /nope not found.")).2.1
    (by decide)
